import Mathlib

/-!
Verification of the IBC contrast-specification engine
(`ibc_public/utils_contrasts.py`) and the group-level statistical
analysis script (`data_paper_scripts/global_stat.py`).

Numeric design-matrix vectors are modelled as lists of rationals;
Python dictionaries as insertion-ordered association lists without
duplicate keys; Python exceptions (KeyError, AssertionError,
ValueError, IndexError) as `Except String`.
-/

namespace IBC

/-- A contrast vector: one rational coefficient per design-matrix column. -/
abbrev Vec := List ℚ

/-!
Scalar arithmetic.  Batteries marks `Rat.add`, `Rat.sub`, `Rat.mul` and
`Rat.inv` as irreducible, which blocks kernel evaluation of concrete
contrast vectors, so the embedding computes with the reducible smart
constructor `mkRat` instead.  The bridge lemmas `qadd_eq`, `qsub_eq`,
`qmul_eq`, `qdiv_eq` and `q_eq` prove these operations equal to the
ordinary field operations on `ℚ`, so the embedding's arithmetic is
exactly rational arithmetic.
-/

/-- The rational literal `n / d`. -/
def q (n : Int) (d : Nat) : ℚ := mkRat n d

/-- Rational addition, computably. -/
def qadd (a b : ℚ) : ℚ := mkRat (a.num * b.den + b.num * a.den) (a.den * b.den)

/-- Rational subtraction, computably. -/
def qsub (a b : ℚ) : ℚ := mkRat (a.num * b.den - b.num * a.den) (a.den * b.den)

/-- Rational multiplication, computably. -/
def qmul (a b : ℚ) : ℚ := mkRat (a.num * b.num) (a.den * b.den)

/-- Rational division, computably. -/
def qdiv (a b : ℚ) : ℚ := Rat.divInt (a.num * b.den) (a.den * b.num)

theorem q_eq (n : Int) (d : Nat) : q n d = (n : ℚ) / d := by
  rw [q, Rat.mkRat_eq_divInt, Rat.divInt_eq_div]
  norm_num

theorem qadd_eq (a b : ℚ) : qadd a b = a + b := (Rat.add_def' a b).symm

theorem qsub_eq (a b : ℚ) : qsub a b = a - b := (Rat.sub_def' a b).symm

theorem qmul_eq (a b : ℚ) : qmul a b = a * b := by
  rw [qmul, Rat.mul_def, Rat.normalize_eq_mkRat]

theorem qdiv_eq (a b : ℚ) : qdiv a b = a / b := (Rat.div_def' a b).symm

/-- A value stored in a contrast dictionary: a 1-d numpy array, a 2-d
numpy array (list of rows), a Python string (as happens in the MTT
paradigm definitions), or the empty list used in the schema-only case. -/
inductive CVal where
  | vec : Vec → CVal
  | mat : List Vec → CVal
  | str : String → CVal
  | empty : CVal
  deriving DecidableEq, Repr

/-- A Python dict from contrast name to value, as an insertion-ordered
association list (no duplicate keys arise when built via `dinsert`). -/
abbrev CMap := List (String × CVal)

/-- Python dict assignment `m[k] = v`: replace in place if the key is
present, append at the end otherwise. -/
def dinsert (k : String) (v : CVal) : CMap → CMap
  | [] => [(k, v)]
  | p :: t => if p.1 == k then (k, v) :: t else p :: dinsert k v t

/-- Python dict lookup returning `none` when the key is absent. -/
def dlookup (k : String) : CMap → Option CVal
  | [] => none
  | p :: t => if p.1 == k then some p.2 else dlookup k t

/-- Build a dict from a list of (key, value) pairs, later pairs
overriding earlier ones in place (Python `dict([...])` semantics). -/
def dictOf (l : List (String × CVal)) : CMap :=
  l.foldl (fun m p => dinsert p.1 p.2 m) []

/-- The keys of a dict, in insertion order (Python `d.keys()`). -/
def keys (m : CMap) : List String := m.map Prod.fst

/-- Computations that may raise a Python exception. -/
abbrev Py (α : Type) := Except String α

/-- `con[k]` on a dict whose values are vectors: raises KeyError when
absent. -/
def getv (con : CMap) (k : String) : Py Vec :=
  match dlookup k con with
  | some (CVal.vec v) => Except.ok v
  | some _ => Except.error ("TypeError: " ++ k)
  | none => Except.error ("KeyError: " ++ k)

/-- Python `assert`: raises AssertionError when the condition fails. -/
def pyAssert (b : Bool) : Py Unit :=
  if b then Except.ok () else Except.error "AssertionError"

/-- Insert a string into a sorted list of strings (ascending). -/
def insSorted (s : String) : List String → List String
  | [] => [s]
  | t :: ts => match compare s t with
    | Ordering.gt => t :: insSorted s ts
    | _ => s :: t :: ts

/-- Python `sorted` on a list of strings. -/
def sortStrings (l : List String) : List String := l.foldr insSorted []

/-- Row `i` of the identity matrix `np.eye(n)`. -/
def eye (n i : Nat) : Vec := (List.range n).map (fun j => if j = i then (1 : ℚ) else 0)

/-- Elementwise sum of two vectors (numpy `+`). -/
def vadd (a b : Vec) : Vec := List.zipWith qadd a b

/-- Elementwise difference of two vectors (numpy `-`). -/
def vsub (a b : Vec) : Vec := List.zipWith qsub a b

/-- Elementwise negation (numpy unary `-`). -/
def vneg (a : Vec) : Vec := a.map (fun x => -x)

/-- Scalar multiple of a vector. -/
def smul (c : ℚ) (a : Vec) : Vec := a.map (fun x => qmul c x)

/-- Division of a vector by a scalar. -/
def vdiv (a : Vec) (c : ℚ) : Vec := a.map (fun x => qdiv x c)

/-- `np.ones n`. -/
def ones (n : Nat) : Vec := List.replicate n (1 : ℚ)

/-- Sum of the entries of a vector. -/
def vsum (v : Vec) : ℚ := v.foldr qadd 0

/-- `np.linspace a b n` (exact rational arithmetic). -/
def linspace (a b : ℚ) (n : Nat) : Vec :=
  (List.range n).map (fun i => qadd a (qdiv (qmul (qsub b a) (i : ℚ)) ((n - 1 : Nat) : ℚ)))

/-- Mean of the entries of a vector (`v.mean()`). -/
def vmean (v : Vec) : ℚ := qdiv (vsum v) (v.length : ℚ)

/-- `np.dot c rows` of a coefficient vector with a stacked matrix of rows,
yielding a vector of length `n`. -/
def mdot (c : Vec) (rows : List Vec) (n : Nat) : Vec :=
  (c.zip rows).foldl (fun acc p => vadd acc (smul p.1 p.2)) (List.replicate n (0 : ℚ))

/-- The column at index `i` (`design_matrix_columns[i]`). -/
def colAt (cols : List String) (i : Nat) : String := cols.getD i ""

/-- `_elementary_contrasts`: one standard basis vector per column, keyed
by the column label (`for i in range(n): con[cols[i]] = np.eye(n)[i]`). -/
def _elementary_contrasts (design_matrix_columns : List String) : CMap :=
  let n_columns := design_matrix_columns.length
  (List.range n_columns).foldl
    (fun con i => dinsert (colAt design_matrix_columns i) (CVal.vec (eye n_columns i)) con) []

/-- The fixed nuisance-label list of `_append_effects_interest_contrast`. -/
def nuisance : List String :=
  ["tx", "ty", "tz", "rx", "ry", "rz", "constant"] ++
  (List.range 20).map (fun i => "drift_" ++ toString i) ++
  (List.range 20).map (fun i => "conf_" ++ toString i)

/-- The derivative-suffix test used by both extension operations:
`len(name) > 11 and name[-11:] == '_derivative'`. -/
def isDerivName (s : String) : Bool :=
  s.length > 11 && s.takeRight 11 == "_derivative"

/-- `_append_effects_interest_contrast`: collect the basis vectors of all
columns that are neither nuisance nor derivative-suffixed; store them
under `'effects_interest'` only when the collected list is non-empty. -/
def _append_effects_interest_contrast (design_matrix_columns : List String)
    (contrast : CMap) : CMap :=
  let n_columns := design_matrix_columns.length
  let con := (List.range n_columns).filterMap (fun i =>
    if nuisance.contains (colAt design_matrix_columns i) then none
    else if isDerivName (colAt design_matrix_columns i) then none
    else some (eye n_columns i))
  if con = [] then contrast else dinsert "effects_interest" (CVal.mat con) contrast

/-- `_append_derivative_contrast`: collect the basis vectors of all
derivative-suffixed columns; store them under `'derivatives'` only when
the collected list is non-empty. -/
def _append_derivative_contrast (design_matrix_columns : List String)
    (contrast : CMap) : CMap :=
  let n_columns := design_matrix_columns.length
  let con := (List.range n_columns).filterMap (fun i =>
    if isDerivName (colAt design_matrix_columns i) then some (eye n_columns i) else none)
  if con = [] then contrast else dinsert "derivatives" (CVal.mat con) contrast

/-- The `bad_names` prefix tuple of `_beta_contrasts`. -/
def bad_names : List String :=
  ["constant", "rx", "ry", "rz", "tx", "ty", "tz"] ++
  (List.range 20).map (fun d => "drift_" ++ toString d) ++
  (List.range 20).map (fun d => "conf_" ++ toString d)

/-- Python `s.startswith(pre)`, computed on the character lists. -/
def startswith (s : String) (pre : String) : Bool :=
  pre.data.isPrefixOf s.data

/-- `_beta_contrasts`: elementary contrasts restricted to columns whose
name does not start with any of the `bad_names` prefixes. -/
def _beta_contrasts (design_matrix_columns : List String) : CMap :=
  (_elementary_contrasts design_matrix_columns).filter
    (fun p => ! bad_names.any (fun b => startswith p.1 b))

/-- The schema-only return value `dict([(name, []) for name in names])`. -/
def schemaDict (names : List String) : CMap :=
  dictOf (names.map (fun n => (n, CVal.empty)))

/-- `dict([(name, con[name]) for name in names])` with vector values,
raising KeyError on an absent column. -/
def pickVecs (con : CMap) (names : List String) : Py CMap := do
  let pairs ← names.mapM (fun n => do
    let v ← getv con n
    pure (n, CVal.vec v))
  return dictOf pairs

/-- The repeated internal-consistency assertion
`assert(sorted(contrasts.keys()) == sorted(contrast_names))`. -/
def assertKeys (contrasts : CMap) (contrast_names : List String) : Py Unit :=
  pyAssert (sortStrings (keys contrasts) == sortStrings contrast_names)

/-! ### Paradigm contrast definitions -/

/-- `mtt_we_relative`: contrasts for the MTT west-east task, relative
setting.  Note the entry `'we_all_event_response'` whose value is the
string `'we_all_event_response'` itself, not a vector. -/
def mtt_we_relative (design_matrix_columns : Option (List String)) : Py CMap := do
  let contrast_list := [
    "we_average_reference",
    "we_all_space_cue",
    "we_all_time_cue",
    "we_all_space-time_cue",
    "we_all_time-space_cue",
    "we_average_event",
    "we_space_event",
    "we_time_event",
    "we_space-time_event",
    "we_time-space_event",
    "westside-eastside_event",
    "eastside-westside_event",
    "we_before-after_event",
    "we_after-before_event",
    "we_all_event_response"]
  match design_matrix_columns with
  | none => return schemaDict contrast_list
  | some dmc => do
    let con := _beta_contrasts dmc
    let we_all_reference ← getv con "we_all_reference"
    let we_all_space_cue ← getv con "we_all_space_cue"
    let we_all_time_cue ← getv con "we_all_time_cue"
    let wwc ← getv con "we_westside_close_event"
    let wwf ← getv con "we_westside_far_event"
    let wec ← getv con "we_eastside_close_event"
    let wef ← getv con "we_eastside_far_event"
    let wbc ← getv con "we_before_close_event"
    let wbf ← getv con "we_before_far_event"
    let wac ← getv con "we_after_close_event"
    let waf ← getv con "we_after_far_event"
    let contrasts := dictOf [
      ("we_average_reference", CVal.vec we_all_reference),
      ("we_all_space_cue", CVal.vec we_all_space_cue),
      ("we_all_time_cue", CVal.vec we_all_time_cue),
      ("we_westside_event", CVal.vec (vadd wwc wwf)),
      ("we_eastside_event", CVal.vec (vadd wec wef)),
      ("we_before_event", CVal.vec (vadd wbc wbf)),
      ("we_after_event", CVal.vec (vadd wac waf)),
      ("we_all_event_response", CVal.str "we_all_event_response")]
    let we_space_time_cue := vsub we_all_space_cue we_all_time_cue
    let contrasts := dinsert "we_all_space-time_cue" (CVal.vec we_space_time_cue) contrasts
    let contrasts := dinsert "we_all_time-space_cue" (CVal.vec (vneg we_space_time_cue)) contrasts
    let we_westside_event ← getv contrasts "we_westside_event"
    let we_eastside_event ← getv contrasts "we_eastside_event"
    let we_before_event ← getv contrasts "we_before_event"
    let we_after_event ← getv contrasts "we_after_event"
    let we_space_event := vadd we_westside_event we_eastside_event
    let we_time_event := vadd we_before_event we_after_event
    let contrasts := dinsert "we_space_event" (CVal.vec we_space_event) contrasts
    let contrasts := dinsert "we_time_event" (CVal.vec we_time_event) contrasts
    let contrasts := dinsert "we_average_event"
      (CVal.vec (vadd we_space_event we_time_event)) contrasts
    let we_space_time_event := vsub we_space_event we_time_event
    let contrasts := dinsert "we_space-time_event" (CVal.vec we_space_time_event) contrasts
    let contrasts := dinsert "we_time-space_event" (CVal.vec (vneg we_space_time_event)) contrasts
    let we_we_event := vsub we_westside_event we_eastside_event
    let contrasts := dinsert "westside-eastside_event" (CVal.vec we_we_event) contrasts
    let contrasts := dinsert "eastside-westside_event" (CVal.vec (vneg we_we_event)) contrasts
    let we_ba_event := vsub we_before_event we_after_event
    let contrasts := dinsert "we_before-after_event" (CVal.vec we_ba_event) contrasts
    let contrasts := dinsert "we_after-before_event" (CVal.vec (vneg we_ba_event)) contrasts
    let contrasts := _append_effects_interest_contrast dmc contrasts
    return contrasts

/-- `mtt_sn_relative`: contrasts for the MTT south-north task, relative
setting.  Note the entry `'sn_all_event_response'` whose value is the
string `'sn_all_event_response'` itself, not a vector. -/
def mtt_sn_relative (design_matrix_columns : Option (List String)) : Py CMap := do
  let contrast_list := [
    "sn_average_reference",
    "sn_all_space_cue",
    "sn_all_time_cue",
    "sn_all_space-time_cue",
    "sn_all_time-space_cue",
    "sn_average_event",
    "sn_space_event",
    "sn_time_event",
    "sn_space-time_event",
    "sn_time-space_event",
    "northside-southside_event",
    "southside-northside_event",
    "sn_before-after_event",
    "sn_after-before_event",
    "sn_all_event_response"]
  match design_matrix_columns with
  | none => return schemaDict contrast_list
  | some dmc => do
    let con := _beta_contrasts dmc
    let sn_all_reference ← getv con "sn_all_reference"
    let sn_all_space_cue ← getv con "sn_all_space_cue"
    let sn_all_time_cue ← getv con "sn_all_time_cue"
    let ssc ← getv con "sn_southside_close_event"
    let ssf ← getv con "sn_southside_far_event"
    let snc ← getv con "sn_northside_close_event"
    let snf ← getv con "sn_northside_far_event"
    let sbc ← getv con "sn_before_close_event"
    let sbf ← getv con "sn_before_far_event"
    let sac ← getv con "sn_after_close_event"
    let saf ← getv con "sn_after_far_event"
    let contrasts := dictOf [
      ("sn_average_reference", CVal.vec sn_all_reference),
      ("sn_all_space_cue", CVal.vec sn_all_space_cue),
      ("sn_all_time_cue", CVal.vec sn_all_time_cue),
      ("sn_southside_event", CVal.vec (vadd ssc ssf)),
      ("sn_northside_event", CVal.vec (vadd snc snf)),
      ("sn_before_event", CVal.vec (vadd sbc sbf)),
      ("sn_after_event", CVal.vec (vadd sac saf)),
      ("sn_all_event_response", CVal.str "sn_all_event_response")]
    let sn_space_time_cue := vsub sn_all_space_cue sn_all_time_cue
    let contrasts := dinsert "sn_all_space-time_cue" (CVal.vec sn_space_time_cue) contrasts
    let contrasts := dinsert "sn_all_time-space_cue" (CVal.vec (vneg sn_space_time_cue)) contrasts
    let sn_southside_event ← getv contrasts "sn_southside_event"
    let sn_northside_event ← getv contrasts "sn_northside_event"
    let sn_before_event ← getv contrasts "sn_before_event"
    let sn_after_event ← getv contrasts "sn_after_event"
    let sn_space_event := vadd sn_southside_event sn_northside_event
    let sn_time_event := vadd sn_before_event sn_after_event
    let contrasts := dinsert "sn_space_event" (CVal.vec sn_space_event) contrasts
    let contrasts := dinsert "sn_time_event" (CVal.vec sn_time_event) contrasts
    let contrasts := dinsert "sn_average_event"
      (CVal.vec (vadd sn_space_event sn_time_event)) contrasts
    let sn_space_time_event := vsub sn_space_event sn_time_event
    let contrasts := dinsert "sn_space-time_event" (CVal.vec sn_space_time_event) contrasts
    let contrasts := dinsert "sn_time-space_event" (CVal.vec (vneg sn_space_time_event)) contrasts
    let sn_sn_event := vsub sn_southside_event sn_northside_event
    let contrasts := dinsert "southside-northside_event" (CVal.vec sn_sn_event) contrasts
    let contrasts := dinsert "northside-southside_event" (CVal.vec (vneg sn_sn_event)) contrasts
    let sn_ba_event := vsub sn_before_event sn_after_event
    let contrasts := dinsert "sn_before-after_event" (CVal.vec sn_ba_event) contrasts
    let contrasts := dinsert "sn_after-before_event" (CVal.vec (vneg sn_ba_event)) contrasts
    let contrasts := _append_effects_interest_contrast dmc contrasts
    return contrasts

/-- `rsvp_language`: contrasts for the RSVP language localizer. -/
def rsvp_language (design_matrix_columns : Option (List String)) : Py CMap := do
  let contrast_names := [
    "complex", "simple", "jabberwocky", "word_list",
    "pseudoword_list", "consonant_string", "complex-simple",
    "sentence-jabberwocky", "sentence-word",
    "word-consonant_string", "jabberwocky-pseudo",
    "word-pseudo", "pseudo-consonant_string",
    "sentence-consonant_string", "simple-consonant_string",
    "complex-consonant_string", "sentence-pseudo", "probe",
    "jabberwocky-consonant_string"]
  match design_matrix_columns with
  | none => return schemaDict contrast_names
  | some dmc => do
    let con := _elementary_contrasts dmc
    let complex_sentence ← getv con "complex_sentence"
    let con := dinsert "complex" (CVal.vec complex_sentence) con
    let simple_sentence ← getv con "simple_sentence"
    let con := dinsert "simple" (CVal.vec simple_sentence) con
    let complex ← getv con "complex"
    let simple ← getv con "simple"
    let probe ← getv con "probe"
    let jabberwocky ← getv con "jabberwocky"
    let word_list ← getv con "word_list"
    let pseudoword_list ← getv con "pseudoword_list"
    let consonant_strings ← getv con "consonant_strings"
    let contrasts := dictOf [
      ("complex", CVal.vec complex),
      ("simple", CVal.vec simple),
      ("probe", CVal.vec probe),
      ("jabberwocky", CVal.vec jabberwocky),
      ("word_list", CVal.vec word_list),
      ("pseudoword_list", CVal.vec pseudoword_list),
      ("consonant_string", CVal.vec consonant_strings),
      ("complex-simple", CVal.vec (vsub complex simple)),
      ("sentence-jabberwocky",
        CVal.vec (vsub (vadd complex simple) (smul 2 jabberwocky))),
      ("sentence-word", CVal.vec (vsub (vadd complex simple) (smul 2 word_list))),
      ("word-consonant_string", CVal.vec (vsub word_list consonant_strings)),
      ("jabberwocky-pseudo", CVal.vec (vsub jabberwocky pseudoword_list)),
      ("jabberwocky-consonant_string", CVal.vec (vsub jabberwocky consonant_strings)),
      ("word-pseudo", CVal.vec (vsub word_list pseudoword_list)),
      ("pseudo-consonant_string", CVal.vec (vsub pseudoword_list consonant_strings)),
      ("sentence-consonant_string",
        CVal.vec (vsub (vadd complex simple) (smul 2 consonant_strings))),
      ("simple-consonant_string", CVal.vec (vsub simple consonant_strings)),
      ("complex-consonant_string", CVal.vec (vsub complex consonant_strings)),
      ("sentence-pseudo",
        CVal.vec (vsub (vadd complex simple) (smul 2 pseudoword_list)))]
    let _ ← assertKeys contrasts contrast_names
    let contrasts := _append_derivative_contrast dmc contrasts
    let contrasts := _append_effects_interest_contrast dmc contrasts
    return contrasts

/-- `archi_social`: contrasts for the ARCHI social protocol. -/
def archi_social (design_matrix_columns : Option (List String)) : Py CMap := do
  let contrast_names := [
    "triangle_mental-random", "false_belief-mechanistic_audio",
    "mechanistic_audio", "false_belief-mechanistic_video",
    "mechanistic_video", "false_belief-mechanistic",
    "speech-non_speech", "triangle_mental", "triangle_random",
    "false_belief_audio", "false_belief_video",
    "speech_sound", "non_speech_sound"]
  match design_matrix_columns with
  | none => return schemaDict contrast_names
  | some dmc => do
    let con := _elementary_contrasts dmc
    let triangle_intention ← getv con "triangle_intention"
    let triangle_random ← getv con "triangle_random"
    let false_belief_audio ← getv con "false_belief_audio"
    let mechanistic_audio ← getv con "mechanistic_audio"
    let false_belief_video ← getv con "false_belief_video"
    let mechanistic_video ← getv con "mechanistic_video"
    let speech ← getv con "speech"
    let non_speech ← getv con "non_speech"
    let contrasts := dictOf [
      ("triangle_mental", CVal.vec triangle_intention),
      ("triangle_random", CVal.vec triangle_random),
      ("false_belief_audio", CVal.vec false_belief_audio),
      ("mechanistic_audio", CVal.vec mechanistic_audio),
      ("false_belief_video", CVal.vec false_belief_video),
      ("mechanistic_video", CVal.vec mechanistic_video),
      ("speech_sound", CVal.vec speech),
      ("non_speech_sound", CVal.vec non_speech),
      ("triangle_mental-random", CVal.vec (vsub triangle_intention triangle_random)),
      ("false_belief-mechanistic_audio",
        CVal.vec (vsub false_belief_audio mechanistic_audio)),
      ("false_belief-mechanistic_video",
        CVal.vec (vsub false_belief_video mechanistic_video)),
      ("speech-non_speech", CVal.vec (vsub speech non_speech)),
      ("mechanistic_video", CVal.vec mechanistic_video),
      ("mechanistic_audio", CVal.vec mechanistic_audio)]
    let fbma ← getv contrasts "false_belief-mechanistic_audio"
    let fbmv ← getv contrasts "false_belief-mechanistic_video"
    let contrasts := dinsert "false_belief-mechanistic" (CVal.vec (vadd fbma fbmv)) contrasts
    let _ ← assertKeys contrasts contrast_names
    let contrasts := _append_derivative_contrast dmc contrasts
    let contrasts := _append_effects_interest_contrast dmc contrasts
    return contrasts

/-- `archi_spatial`: contrasts for the ARCHI spatial protocol. -/
def archi_spatial (design_matrix_columns : Option (List String)) : Py CMap := do
  let contrast_names := [
    "saccades", "rotation_hand", "rotation_side", "object_grasp",
    "object_orientation", "hand-side", "grasp-orientation"]
  match design_matrix_columns with
  | none => return schemaDict contrast_names
  | some dmc => do
    let con := _elementary_contrasts dmc
    let saccade ← getv con "saccade"
    let rotation_hand ← getv con "rotation_hand"
    let rotation_side ← getv con "rotation_side"
    let object_grasp ← getv con "object_grasp"
    let object_orientation ← getv con "object_orientation"
    let contrasts := dictOf [
      ("saccades", CVal.vec saccade),
      ("rotation_hand", CVal.vec rotation_hand),
      ("rotation_side", CVal.vec rotation_side),
      ("object_grasp", CVal.vec object_grasp),
      ("object_orientation", CVal.vec object_orientation),
      ("hand-side", CVal.vec (vsub rotation_hand rotation_side)),
      ("grasp-orientation", CVal.vec (vsub object_grasp object_orientation))]
    let _ ← assertKeys contrasts contrast_names
    let contrasts := _append_derivative_contrast dmc contrasts
    let contrasts := _append_effects_interest_contrast dmc contrasts
    return contrasts

/-- `archi_standard`: contrasts for the ARCHI standard protocol. -/
def archi_standard (design_matrix_columns : Option (List String)) : Py CMap := do
  let contrast_names := [
    "audio_left_button_press", "audio_right_button_press",
    "video_left_button_press", "video_right_button_press",
    "left-right_button_press", "right-left_button_press",
    "listening-reading", "reading-listening",
    "motor-cognitive", "cognitive-motor", "reading-checkerboard",
    "horizontal-vertical", "vertical-horizontal",
    "horizontal_checkerboard", "vertical_checkerboard",
    "audio_sentence", "video_sentence",
    "audio_computation", "video_computation",
    "sentences", "computation",
    "computation-sentences", "sentences-computation"]
  match design_matrix_columns with
  | none => return schemaDict contrast_names
  | some dmc => do
    let m := _elementary_contrasts dmc
    let audio_left_hand ← getv m "audio_left_hand"
    let audio_right_hand ← getv m "audio_right_hand"
    let video_left_hand ← getv m "video_left_hand"
    let video_right_hand ← getv m "video_right_hand"
    let audio_computation ← getv m "audio_computation"
    let audio_sentence ← getv m "audio_sentence"
    let video_sentence ← getv m "video_sentence"
    let video_computation ← getv m "video_computation"
    let horizontal_checkerboard ← getv m "horizontal_checkerboard"
    let vertical_checkerboard ← getv m "vertical_checkerboard"
    let m := dinsert "audio_left_button_press" (CVal.vec audio_left_hand) m
    let m := dinsert "audio_right_button_press" (CVal.vec audio_right_hand) m
    let m := dinsert "video_left_button_press" (CVal.vec video_left_hand) m
    let m := dinsert "video_right_button_press" (CVal.vec video_right_hand) m
    let audio_all := vadd (vadd (vadd audio_left_hand audio_right_hand)
      audio_computation) audio_sentence
    let m := dinsert "audio" (CVal.vec audio_all) m
    let video_all := vadd (vadd (vadd video_left_hand video_right_hand)
      video_computation) video_sentence
    let m := dinsert "video" (CVal.vec video_all) m
    let left_button_press := vadd audio_left_hand video_left_hand
    let m := dinsert "left_button_press" (CVal.vec left_button_press) m
    let right_button_press := vadd audio_right_hand video_right_hand
    let m := dinsert "right_button_press" (CVal.vec right_button_press) m
    let computation := vadd audio_computation video_computation
    let m := dinsert "computation" (CVal.vec computation) m
    let sentences := vadd audio_sentence video_sentence
    let m := dinsert "sentences" (CVal.vec sentences) m
    let m := dinsert "horizontal-vertical"
      (CVal.vec (vsub horizontal_checkerboard vertical_checkerboard)) m
    let m := dinsert "vertical-horizontal"
      (CVal.vec (vsub vertical_checkerboard horizontal_checkerboard)) m
    let m := dinsert "left-right_button_press"
      (CVal.vec (vsub left_button_press right_button_press)) m
    let m := dinsert "right-left_button_press"
      (CVal.vec (vsub right_button_press left_button_press)) m
    let motor_cognitive := vsub (vsub (vadd left_button_press right_button_press)
      computation) sentences
    let m := dinsert "motor-cognitive" (CVal.vec motor_cognitive) m
    let m := dinsert "cognitive-motor" (CVal.vec (vneg motor_cognitive)) m
    let m := dinsert "listening-reading" (CVal.vec (vsub audio_all video_all)) m
    let m := dinsert "reading-listening" (CVal.vec (vsub video_all audio_all)) m
    let m := dinsert "computation-sentences" (CVal.vec (vsub computation sentences)) m
    let m := dinsert "sentences-computation" (CVal.vec (vsub sentences computation)) m
    let m := dinsert "reading-checkerboard"
      (CVal.vec (vsub video_sentence horizontal_checkerboard)) m
    let contrasts ← pickVecs m contrast_names
    let _ ← assertKeys contrasts contrast_names
    let contrasts := _append_derivative_contrast dmc contrasts
    let contrasts := _append_effects_interest_contrast dmc contrasts
    return contrasts

/-- `archi_emotional`: contrasts for the ARCHI emotional protocol. -/
def archi_emotional (design_matrix_columns : Option (List String)) : Py CMap := do
  let contrast_names := [
    "face_gender", "face_control", "face_trusty",
    "expression_intention", "expression_gender", "expression_control",
    "trusty_and_intention-control", "trusty_and_intention-gender",
    "expression_gender-control", "expression_intention-control",
    "expression_intention-gender", "face_trusty-control",
    "face_gender-control", "face_trusty-gender"]
  match design_matrix_columns with
  | none => return schemaDict contrast_names
  | some dmc => do
    let con := _elementary_contrasts dmc
    let face_gender ← getv con "face_gender"
    let face_control ← getv con "face_control"
    let face_trusty ← getv con "face_trusty"
    let expression_intention ← getv con "expression_intention"
    let expression_gender ← getv con "expression_gender"
    let expression_control ← getv con "expression_control"
    let contrasts := dictOf [
      ("face_gender", CVal.vec face_gender),
      ("face_control", CVal.vec face_control),
      ("face_trusty", CVal.vec face_trusty),
      ("expression_intention", CVal.vec expression_intention),
      ("expression_gender", CVal.vec expression_gender),
      ("expression_control", CVal.vec expression_control),
      ("face_trusty-gender", CVal.vec (vsub face_trusty face_gender)),
      ("face_gender-control", CVal.vec (vsub face_gender face_control)),
      ("face_trusty-control", CVal.vec (vsub face_trusty face_control)),
      ("expression_intention-gender",
        CVal.vec (vsub expression_intention expression_gender)),
      ("expression_intention-control",
        CVal.vec (vsub expression_intention expression_control)),
      ("expression_gender-control",
        CVal.vec (vsub expression_gender expression_control))]
    let ftg ← getv contrasts "face_trusty-gender"
    let eig ← getv contrasts "expression_intention-gender"
    let contrasts := dinsert "trusty_and_intention-gender" (CVal.vec (vadd ftg eig)) contrasts
    let ftc ← getv contrasts "face_trusty-control"
    let eic ← getv contrasts "expression_intention-control"
    let contrasts := dinsert "trusty_and_intention-control" (CVal.vec (vadd ftc eic)) contrasts
    let _ ← assertKeys contrasts contrast_names
    let contrasts := _append_derivative_contrast dmc contrasts
    let contrasts := _append_effects_interest_contrast dmc contrasts
    return contrasts

/-- The lowercased elementary-contrast dict built inline by the HCP
definitions (`contrasts[cols[i].lower()] = np.eye(n)[i]`). -/
def _lower_elementary (dmc : List String) : CMap :=
  let n_columns := dmc.length
  (List.range n_columns).foldl
    (fun m i => dinsert (colAt dmc i).toLower (CVal.vec (eye n_columns i)) m) []

/-- `hcp_emotion`: contrasts for the HCP emotion protocol. -/
def hcp_emotion (design_matrix_columns : Option (List String)) : Py CMap := do
  let contrast_names := ["face", "shape", "face-shape", "shape-face"]
  match design_matrix_columns with
  | none => return schemaDict contrast_names
  | some dmc => do
    let m := _lower_elementary dmc
    let face ← getv m "face"
    let shape ← getv m "shape"
    let contrasts := dictOf [
      ("face-shape", CVal.vec (vsub face shape)),
      ("shape-face", CVal.vec (vsub shape face)),
      ("face", CVal.vec face),
      ("shape", CVal.vec shape)]
    let _ ← assertKeys contrasts contrast_names
    let contrasts := _append_derivative_contrast dmc contrasts
    let contrasts := _append_effects_interest_contrast dmc contrasts
    return contrasts

/-- `hcp_gambling`: contrasts for the HCP gambling protocol. -/
def hcp_gambling (design_matrix_columns : Option (List String)) : Py CMap := do
  let contrast_names := ["punishment-reward", "reward-punishment", "punishment", "reward"]
  match design_matrix_columns with
  | none => return schemaDict contrast_names
  | some dmc => do
    let m := _lower_elementary dmc
    let punishment ← getv m "punishment"
    let reward ← getv m "reward"
    let contrasts := dictOf [
      ("punishment-reward", CVal.vec (vsub punishment reward)),
      ("reward-punishment", CVal.vec (vsub reward punishment)),
      ("punishment", CVal.vec punishment),
      ("reward", CVal.vec reward)]
    let _ ← assertKeys contrasts contrast_names
    let contrasts := _append_derivative_contrast dmc contrasts
    let contrasts := _append_effects_interest_contrast dmc contrasts
    return contrasts

/-- `hcp_language`: contrasts for the HCP language protocol. -/
def hcp_language (design_matrix_columns : Option (List String)) : Py CMap := do
  let contrast_names := ["math-story", "story-math", "math", "story"]
  match design_matrix_columns with
  | none => return schemaDict contrast_names
  | some dmc => do
    let m := _lower_elementary dmc
    let math ← getv m "math"
    let story ← getv m "story"
    let contrasts := dictOf [
      ("math-story", CVal.vec (vsub math story)),
      ("story-math", CVal.vec (vsub story math)),
      ("math", CVal.vec math),
      ("story", CVal.vec story)]
    let _ ← assertKeys contrasts contrast_names
    let contrasts := _append_derivative_contrast dmc contrasts
    let contrasts := _append_effects_interest_contrast dmc contrasts
    return contrasts

/-- `hcp_motor`: contrasts for the HCP motor protocol. -/
def hcp_motor (design_matrix_columns : Option (List String)) : Py CMap := do
  let contrast_names := [
    "left_hand", "right_hand", "left_foot", "right_foot",
    "tongue", "tongue-avg", "left_hand-avg", "right_hand-avg",
    "left_foot-avg", "right_foot-avg", "cue"]
  match design_matrix_columns with
  | none => return schemaDict contrast_names
  | some dmc => do
    let m := _lower_elementary dmc
    let left_hand ← getv m "left_hand"
    let right_hand ← getv m "right_hand"
    let left_foot ← getv m "left_foot"
    let right_foot ← getv m "right_foot"
    let tongue ← getv m "tongue"
    let average := vdiv (vadd (vadd (vadd (vadd left_hand right_hand) left_foot)
      right_foot) tongue) 5
    let m := dinsert "Average" (CVal.vec average) m
    let cue ← getv m "cue"
    let contrasts := dictOf [
      ("cue", CVal.vec cue),
      ("left_hand", CVal.vec left_hand),
      ("right_hand", CVal.vec right_hand),
      ("left_foot", CVal.vec left_foot),
      ("right_foot", CVal.vec right_foot),
      ("tongue", CVal.vec tongue),
      ("left_hand-avg", CVal.vec (vsub left_hand average)),
      ("right_hand-avg", CVal.vec (vsub right_hand average)),
      ("left_foot-avg", CVal.vec (vsub left_foot average)),
      ("right_foot-avg", CVal.vec (vsub right_foot average)),
      ("tongue-avg", CVal.vec (vsub tongue average))]
    let _ ← assertKeys contrasts contrast_names
    let contrasts := _append_derivative_contrast dmc contrasts
    let contrasts := _append_effects_interest_contrast dmc contrasts
    return contrasts

/-- `hcp_relational`: contrasts for the HCP relational protocol. -/
def hcp_relational (design_matrix_columns : Option (List String)) : Py CMap := do
  let contrast_names := ["relational", "relational-match", "match"]
  match design_matrix_columns with
  | none => return schemaDict contrast_names
  | some dmc => do
    let m := _lower_elementary dmc
    let relational ← getv m "relational"
    let control ← getv m "control"
    let contrasts := dictOf [
      ("match", CVal.vec control),
      ("relational", CVal.vec relational),
      ("relational-match", CVal.vec (vsub relational control))]
    let _ ← assertKeys contrasts contrast_names
    let contrasts := _append_derivative_contrast dmc contrasts
    let contrasts := _append_effects_interest_contrast dmc contrasts
    return contrasts

/-- `hcp_social`: contrasts for the HCP social protocol. -/
def hcp_social (design_matrix_columns : Option (List String)) : Py CMap := do
  let contrast_names := ["mental-random", "mental", "random"]
  match design_matrix_columns with
  | none => return schemaDict contrast_names
  | some dmc => do
    let m := _lower_elementary dmc
    let mental ← getv m "mental"
    let random ← getv m "random"
    let contrasts := dictOf [
      ("mental-random", CVal.vec (vsub mental random)),
      ("random", CVal.vec random),
      ("mental", CVal.vec mental)]
    let _ ← assertKeys contrasts contrast_names
    let contrasts := _append_derivative_contrast dmc contrasts
    let contrasts := _append_effects_interest_contrast dmc contrasts
    return contrasts

/-- `hcp_wm`: contrasts for the HCP working-memory protocol. -/
def hcp_wm (design_matrix_columns : Option (List String)) : Py CMap := do
  let contrast_names := ["2back-0back", "0back-2back", "body-avg",
                         "face-avg", "place-avg", "tools-avg",
                         "0back_body", "2back_body", "0back_face", "2back_face",
                         "0back_tools", "2back_tools", "0back_place",
                         "2back_place"]
  match design_matrix_columns with
  | none => return schemaDict contrast_names
  | some dmc => do
    let m := _lower_elementary dmc
    let b2body ← getv m "2back_body"
    let b0body ← getv m "0back_body"
    let b2face ← getv m "2back_face"
    let b0face ← getv m "0back_face"
    let b2tools ← getv m "2back_tools"
    let b0tools ← getv m "0back_tools"
    let b0place ← getv m "0back_place"
    let b2place ← getv m "2back_place"
    let back2 := vadd (vadd (vadd b2body b2face) b2tools) b2place
    let back0 := vadd (vadd (vadd b0body b0face) b0tools) b0place
    let body := vdiv (vadd b2body b0body) 2
    let face := vdiv (vadd b2face b0face) 2
    let place := vdiv (vadd b2place b0place) 2
    let tools := vdiv (vadd b2tools b0tools) 2
    let average := vdiv (vadd back2 back0) 8
    let contrasts := dictOf [
      ("0back_body", CVal.vec b0body),
      ("2back_body", CVal.vec b2body),
      ("0back_face", CVal.vec b0face),
      ("2back_face", CVal.vec b2face),
      ("0back_tools", CVal.vec b0tools),
      ("2back_tools", CVal.vec b2tools),
      ("0back_place", CVal.vec b0place),
      ("2back_place", CVal.vec b2place),
      ("2back-0back", CVal.vec (vsub back2 back0)),
      ("0back-2back", CVal.vec (vsub back0 back2)),
      ("body-avg", CVal.vec (vsub body average)),
      ("face-avg", CVal.vec (vsub face average)),
      ("place-avg", CVal.vec (vsub place average)),
      ("tools-avg", CVal.vec (vsub tools average))]
    let _ ← assertKeys contrasts contrast_names
    let contrasts := _append_derivative_contrast dmc contrasts
    let contrasts := _append_effects_interest_contrast dmc contrasts
    return contrasts

/-- `lyon_audi`: contrasts for the Lyon audi protocol. -/
def lyon_audi (design_matrix_columns : Option (List String)) : Py CMap := do
  let contrast_names := ["tear", "suomi", "yawn", "human", "music",
                         "reverse", "speech", "alphabet", "cough", "environment",
                         "laugh", "animals", "silence", "tear-silence",
                         "suomi-silence",
                         "yawn-silence", "human-silence", "music-silence",
                         "reverse-silence", "speech-silence", "alphabet-silence",
                         "cough-silence", "environment-silence",
                         "laugh-silence", "animals-silence"]
  match design_matrix_columns with
  | none => return schemaDict contrast_names
  | some dmc => do
    let con := _elementary_contrasts dmc
    let contrasts ← pickVecs con (contrast_names.take 13)
    let contrasts ← (contrast_names.take 12).foldlM (fun m name => do
      let v ← getv con name
      let silence ← getv con "silence"
      pure (dinsert (name ++ "-silence") (CVal.vec (vsub v silence)) m)) contrasts
    let _ ← assertKeys contrasts contrast_names
    let contrasts := _append_derivative_contrast dmc contrasts
    let contrasts := _append_effects_interest_contrast dmc contrasts
    return contrasts

/-- `lyon_visu`: contrasts for the Lyon visu protocol. -/
def lyon_visu (design_matrix_columns : Option (List String)) : Py CMap := do
  let contrast_names := ["scrambled", "scene", "tool", "face", "target_fruit",
                         "house", "animal", "characters", "pseudoword",
                         "scene-scrambled", "tool-scrambled",
                         "face-scrambled", "house-scrambled", "animal-scrambled",
                         "characters-scrambled", "pseudoword-scrambled"]
  match design_matrix_columns with
  | none => return schemaDict contrast_names
  | some dmc => do
    let con := _elementary_contrasts dmc
    let canonical_contrasts := ["scrambled", "scene", "tool", "face",
                                "house", "animal", "characters", "pseudoword"]
    let contrast ← pickVecs con canonical_contrasts
    let target_fruit ← getv con "target_fruit"
    let contrast := dinsert "target_fruit" (CVal.vec target_fruit) contrast
    let scrambled ← getv contrast "scrambled"
    let scene ← getv contrast "scene"
    let tool ← getv contrast "tool"
    let face ← getv contrast "face"
    let house ← getv contrast "house"
    let animal ← getv contrast "animal"
    let characters ← getv contrast "characters"
    let pseudoword ← getv contrast "pseudoword"
    let contrast := dinsert "scene-scrambled" (CVal.vec (vsub scene scrambled)) contrast
    let contrast := dinsert "tool-scrambled" (CVal.vec (vsub tool scrambled)) contrast
    let contrast := dinsert "face-scrambled" (CVal.vec (vsub face scrambled)) contrast
    let contrast := dinsert "house-scrambled" (CVal.vec (vsub house scrambled)) contrast
    let contrast := dinsert "animal-scrambled" (CVal.vec (vsub animal scrambled)) contrast
    let contrast := dinsert "characters-scrambled" (CVal.vec (vsub characters scrambled)) contrast
    let contrast := dinsert "pseudoword-scrambled" (CVal.vec (vsub pseudoword scrambled)) contrast
    let _ ← assertKeys contrast contrast_names
    let contrast := _append_derivative_contrast dmc contrast
    let contrast := _append_effects_interest_contrast dmc contrast
    return contrast

/-- `lyon_lec1`: contrasts for the Lyon lec1 protocol. -/
def lyon_lec1 (design_matrix_columns : Option (List String)) : Py CMap := do
  let contrast_names := ["pseudoword", "word", "random_string", "word-pseudoword",
                         "word-random_string", "pseudoword-random_string"]
  match design_matrix_columns with
  | none => return schemaDict contrast_names
  | some dmc => do
    let con := _elementary_contrasts dmc
    let pseudoword ← getv con "pseudoword"
    let word ← getv con "word"
    let random_string ← getv con "random_string"
    let contrasts := dictOf [
      ("pseudoword", CVal.vec pseudoword),
      ("word", CVal.vec word),
      ("random_string", CVal.vec random_string),
      ("word-pseudoword", CVal.vec (vsub word pseudoword)),
      ("word-random_string", CVal.vec (vsub word random_string)),
      ("pseudoword-random_string", CVal.vec (vsub pseudoword random_string))]
    let _ ← assertKeys contrasts contrast_names
    let contrasts := _append_derivative_contrast dmc contrasts
    let contrasts := _append_effects_interest_contrast dmc contrasts
    return contrasts

/-- `audio`: contrasts for the audio protocol. -/
def audio (design_matrix_columns : Option (List String)) : Py CMap := do
  let contrast_names := [
    "animal", "music", "nature",
    "speech", "tool", "voice",
    "animal-others", "music-others", "nature-others",
    "speech-others", "tool-others", "voice-others", "mean-silence",
    "animal-silence", "music-silence", "nature-silence",
    "speech-silence", "tool-silence", "voice-silence"]
  match design_matrix_columns with
  | none => return schemaDict contrast_names
  | some dmc => do
    let con := _elementary_contrasts dmc
    let animal ← getv con "animal"
    let music ← getv con "music"
    let nature ← getv con "nature"
    let speech ← getv con "speech"
    let tool ← getv con "tool"
    let voice ← getv con "voice"
    let silence ← getv con "silence"
    let others := vdiv (vadd (vadd (vadd (vadd (vadd animal music) nature) speech) tool) voice) 5
    let contrasts := dictOf [
      ("animal", CVal.vec animal),
      ("music", CVal.vec music),
      ("nature", CVal.vec nature),
      ("speech", CVal.vec speech),
      ("tool", CVal.vec tool),
      ("voice", CVal.vec voice),
      ("mean-silence", CVal.vec (vsub others silence)),
      ("animal-others", CVal.vec (vsub animal others)),
      ("music-others", CVal.vec (vsub music others)),
      ("nature-others", CVal.vec (vsub nature others)),
      ("speech-others", CVal.vec (vsub speech others)),
      ("tool-others", CVal.vec (vsub tool others)),
      ("voice-others", CVal.vec (vsub voice others)),
      ("animal-silence", CVal.vec (vsub animal silence)),
      ("music-silence", CVal.vec (vsub music silence)),
      ("nature-silence", CVal.vec (vsub nature silence)),
      ("speech-silence", CVal.vec (vsub speech silence)),
      ("tool-silence", CVal.vec (vsub tool silence)),
      ("voice-silence", CVal.vec (vsub voice silence))]
    let _ ← assertKeys contrasts contrast_names
    let contrasts := _append_derivative_contrast dmc contrasts
    let contrasts := _append_effects_interest_contrast dmc contrasts
    return contrasts

/-- `lyon_mveb`: contrasts for the Lyon mveb localizer. -/
def lyon_mveb (design_matrix_columns : Option (List String)) : Py CMap := do
  let contrast_names := [
    "response", "2_letters_different", "2_letters_same",
    "4_letters_different", "4_letters_same",
    "6_letters_different", "6_letters_same",
    "2_letters_different-same",
    "4_letters_different-same", "6_letters_different-same",
    "6_letters_different-2_letters_different"]
  match design_matrix_columns with
  | none => return schemaDict contrast_names
  | some dmc => do
    let con := _elementary_contrasts dmc
    let contrasts ← pickVecs con (contrast_names.take 7)
    let l2d ← getv con "2_letters_different"
    let l2s ← getv con "2_letters_same"
    let l4d ← getv con "4_letters_different"
    let l4s ← getv con "4_letters_same"
    let l6d ← getv con "6_letters_different"
    let l6s ← getv con "6_letters_same"
    let contrasts := dinsert "2_letters_different-same" (CVal.vec (vsub l2d l2s)) contrasts
    let contrasts := dinsert "4_letters_different-same" (CVal.vec (vsub l4d l4s)) contrasts
    let contrasts := dinsert "6_letters_different-same" (CVal.vec (vsub l6d l6s)) contrasts
    let contrasts := dinsert "6_letters_different-2_letters_different"
      (CVal.vec (vsub l6d l2d)) contrasts
    let _ ← assertKeys contrasts contrast_names
    let contrasts := _append_derivative_contrast dmc contrasts
    let contrasts := _append_effects_interest_contrast dmc contrasts
    return contrasts

/-- `lyon_mvis`: contrasts for the Lyon mvis localizer. -/
def lyon_mvis (design_matrix_columns : Option (List String)) : Py CMap := do
  let contrast_names := ["response",
                         "2_dots-2_dots_control", "4_dots-4_dots_control",
                         "6_dots-6_dots_control", "6_dots-2_dots", "dots-control"]
  match design_matrix_columns with
  | none => return schemaDict contrast_names
  | some dmc => do
    let con := _elementary_contrasts dmc
    let response ← getv con "response"
    let contrasts := dictOf [("response", CVal.vec response)]
    let d2 ← getv con "2_dots"
    let d2c ← getv con "2_dots_control"
    let d4 ← getv con "4_dots"
    let d4c ← getv con "4_dots_control"
    let d6 ← getv con "6_dots"
    let d6c ← getv con "6_dots_control"
    let contrasts := dinsert "2_dots-2_dots_control" (CVal.vec (vsub d2 d2c)) contrasts
    let contrasts := dinsert "4_dots-4_dots_control" (CVal.vec (vsub d4 d4c)) contrasts
    let contrasts := dinsert "6_dots-6_dots_control" (CVal.vec (vsub d6 d6c)) contrasts
    let contrasts := dinsert "6_dots-2_dots" (CVal.vec (vsub d6 d2)) contrasts
    let contrasts := dinsert "dots-control"
      (CVal.vec (vsub (vadd (vadd d6 d4) d2) (vadd (vadd d2c d6c) d4c))) contrasts
    let _ ← assertKeys contrasts contrast_names
    let contrasts := _append_derivative_contrast dmc contrasts
    let contrasts := _append_effects_interest_contrast dmc contrasts
    return contrasts

/-- `lyon_moto`: contrasts for the Lyon motor localizer. -/
def lyon_moto (design_matrix_columns : Option (List String)) : Py CMap := do
  let contrast_names := [
    "instructions", "finger_right-fixation", "finger_left-fixation",
    "foot_left-fixation", "foot_right-fixation", "hand_left-fixation",
    "hand_right-fixation", "saccade-fixation", "tongue-fixation"]
  match design_matrix_columns with
  | none => return schemaDict contrast_names
  | some dmc => do
    let con := _elementary_contrasts dmc
    let instructions ← getv con "instructions"
    let contrasts := dictOf [("instructions", CVal.vec instructions)]
    let fixation_left ← getv con "fixation_left"
    let fixation_right ← getv con "fixation_right"
    let con := dinsert "fixation"
      (CVal.vec (smul (q 1 2) (vadd fixation_left fixation_right))) con
    let fixation ← getv con "fixation"
    let finger_right ← getv con "finger_right"
    let finger_left ← getv con "finger_left"
    let foot_left ← getv con "foot_left"
    let foot_right ← getv con "foot_right"
    let hand_left ← getv con "hand_left"
    let hand_right ← getv con "hand_right"
    let saccade_left ← getv con "saccade_left"
    let saccade_right ← getv con "saccade_right"
    let tongue_left ← getv con "tongue_left"
    let tongue_right ← getv con "tongue_right"
    let contrasts := dinsert "finger_right-fixation" (CVal.vec (vsub finger_right fixation)) contrasts
    let contrasts := dinsert "finger_left-fixation" (CVal.vec (vsub finger_left fixation)) contrasts
    let contrasts := dinsert "foot_left-fixation" (CVal.vec (vsub foot_left fixation)) contrasts
    let contrasts := dinsert "foot_right-fixation" (CVal.vec (vsub foot_right fixation)) contrasts
    let contrasts := dinsert "hand_left-fixation" (CVal.vec (vsub hand_left fixation)) contrasts
    let contrasts := dinsert "hand_right-fixation" (CVal.vec (vsub hand_right fixation)) contrasts
    let contrasts := dinsert "saccade-fixation"
      (CVal.vec (vsub (vadd saccade_left saccade_right) (smul 2 fixation))) contrasts
    let contrasts := dinsert "tongue-fixation"
      (CVal.vec (vsub (vadd tongue_left tongue_right) (smul 2 fixation))) contrasts
    let _ ← assertKeys contrasts contrast_names
    let contrasts := _append_derivative_contrast dmc contrasts
    let contrasts := _append_effects_interest_contrast dmc contrasts
    return contrasts

/-- `lyon_mcse`: contrasts for the Lyon MCSE localizer.  Note the dict
holds nine keys while only seven names are declared. -/
def lyon_mcse (design_matrix_columns : Option (List String)) : Py CMap := do
  let contrast_names := [
    "high_salience_left", "high_salience_right",
    "low_salience_left", "low_salience_right",
    "low-high_salience", "salience_left-right",
    "low+high_salience"]
  match design_matrix_columns with
  | none => return schemaDict contrast_names
  | some dmc => do
    let con := _elementary_contrasts dmc
    let hsl ← getv con "hi_salience_left"
    let hsr ← getv con "hi_salience_right"
    let lsl ← getv con "low_salience_left"
    let lsr ← getv con "low_salience_right"
    let contrasts := dictOf [
      ("high_salience_left", CVal.vec hsl),
      ("high_salience_right", CVal.vec hsr),
      ("low_salience_left", CVal.vec lsl),
      ("low_salience_right", CVal.vec lsr),
      ("high-low_salience", CVal.vec (vsub (vsub (vadd hsl hsr) lsl) lsr)),
      ("low-high_salience", CVal.vec (vadd (vadd (vsub (vneg hsl) hsr) lsl) lsr)),
      ("salience_left-right", CVal.vec (vsub (vadd (vsub hsl hsr) lsl) lsr)),
      ("salience_right-left", CVal.vec (vadd (vsub (vadd (vneg hsl) hsr) lsl) lsr)),
      ("low+high_salience", CVal.vec (vadd (vadd (vadd hsl hsr) lsl) lsr))]
    let _ ← assertKeys contrasts contrast_names
    let contrasts := _append_derivative_contrast dmc contrasts
    let contrasts := _append_effects_interest_contrast dmc contrasts
    return contrasts

/-- `bang`: contrasts for the bang experiment. -/
def bang (design_matrix_columns : Option (List String)) : Py CMap := do
  let contrast_names := ["talk", "no_talk", "talk-no_talk"]
  match design_matrix_columns with
  | none => return schemaDict contrast_names
  | some dmc => do
    let con := _elementary_contrasts dmc
    let talk ← getv con "talk"
    let no_talk ← getv con "no_talk"
    let contrasts := dictOf [
      ("talk", CVal.vec talk),
      ("no_talk", CVal.vec no_talk),
      ("talk-no_talk", CVal.vec (vsub talk no_talk))]
    let _ ← assertKeys contrasts contrast_names
    let contrasts := _append_derivative_contrast dmc contrasts
    let contrasts := _append_effects_interest_contrast dmc contrasts
    return contrasts

/-- `colour`: contrasts for the colour localizer (no assertion and no
bookkeeping extensions in this definition). -/
def colour (design_matrix_columns : Option (List String)) : Py CMap := do
  match design_matrix_columns with
  | none => return schemaDict ["color", "grey", "color-grey"]
  | some dmc => do
    let con := _elementary_contrasts dmc
    let color ← getv con "color"
    let grey ← getv con "grey"
    let contrasts := dictOf [
      ("color", CVal.vec color),
      ("grey", CVal.vec grey),
      ("color-grey", CVal.vec (vsub color grey))]
    return contrasts

/-- `emotional_pain`: contrasts for the emotional pain task. -/
def emotional_pain (design_matrix_columns : Option (List String)) : Py CMap := do
  let contrast_names := ["physical_pain", "emotional_pain",
                         "emotional-physical_pain"]
  match design_matrix_columns with
  | none => return schemaDict contrast_names
  | some dmc => do
    let con := _elementary_contrasts dmc
    let emotional ← getv con "emotional_pain"
    let physical ← getv con "physical_pain"
    let contrasts := dictOf [
      ("emotional_pain", CVal.vec emotional),
      ("physical_pain", CVal.vec physical),
      ("emotional-physical_pain", CVal.vec (vsub emotional physical))]
    let _ ← assertKeys contrasts contrast_names
    let contrasts := _append_derivative_contrast dmc contrasts
    let contrasts := _append_effects_interest_contrast dmc contrasts
    return contrasts

/-- `pain_movie`: contrasts for the pain movie task. -/
def pain_movie (design_matrix_columns : Option (List String)) : Py CMap := do
  let contrast_names := ["movie_pain", "movie_mental", "movie_mental-pain"]
  match design_matrix_columns with
  | none => return schemaDict contrast_names
  | some dmc => do
    let con := _elementary_contrasts dmc
    let pain ← getv con "pain"
    let mental ← getv con "mental"
    let contrasts := dictOf [
      ("movie_pain", CVal.vec pain),
      ("movie_mental", CVal.vec mental),
      ("movie_mental-pain", CVal.vec (vsub mental pain))]
    let _ ← assertKeys contrasts contrast_names
    let contrasts := _append_derivative_contrast dmc contrasts
    let contrasts := _append_effects_interest_contrast dmc contrasts
    return contrasts

/-- `theory_of_mind`: contrasts for the theory-of-mind task. -/
def theory_of_mind (design_matrix_columns : Option (List String)) : Py CMap := do
  let contrast_names := ["belief", "photo", "belief-photo"]
  match design_matrix_columns with
  | none => return schemaDict contrast_names
  | some dmc => do
    let con := _elementary_contrasts dmc
    let photo ← getv con "photo"
    let belief ← getv con "belief"
    let contrasts := dictOf [
      ("photo", CVal.vec photo),
      ("belief", CVal.vec belief),
      ("belief-photo", CVal.vec (vsub belief photo))]
    let _ ← assertKeys contrasts contrast_names
    let contrasts := _append_derivative_contrast dmc contrasts
    let contrasts := _append_effects_interest_contrast dmc contrasts
    return contrasts

/-- `preferences`: contrasts for the preference experiment in one domain. -/
def preferences (design_matrix_columns : Option (List String)) (domain : String) : Py CMap := do
  if !(["painting", "house", "face", "food"].contains domain) then
    Except.error "ValueError: Not a correct domain"
  else do
    let contrast_names := [domain ++ "_linear", domain ++ "_constant",
                           domain ++ "_quadratic"]
    match design_matrix_columns with
    | none => return schemaDict contrast_names
    | some dmc => do
      let con := _elementary_contrasts dmc
      let contrasts ← pickVecs con contrast_names
      let _ ← assertKeys contrasts contrast_names
      let contrasts := _append_derivative_contrast dmc contrasts
      let contrasts := _append_effects_interest_contrast dmc contrasts
      return contrasts

/-- `self_localizer`: contrasts for the self-referential memory-encoding
paradigm (paradigm id `'self'`), with its try/except fallback chains. -/
def self_localizer (design_matrix_columns : Option (List String)) : Py CMap := do
  let contrast_names := [
    "encode_self-other", "encode_other", "encode_self",
    "instructions", "false_alarm", "correct_rejection",
    "recognition_hit", "recognition_hit-correct_rejection",
    "recognition_self-other", "recognition_self_hit",
    "recognition_other_hit"]
  match design_matrix_columns with
  | none => return schemaDict contrast_names
  | some dmc => do
    let con := _elementary_contrasts dmc
    let recognition_hit ←
      match dlookup "recognition_other_hit" con, dlookup "recognition_self_hit" con with
      | some (CVal.vec a), some (CVal.vec b) => Except.ok (vadd a b)
      | _, _ =>
        match dlookup "recognition_self_hit" con with
        | some (CVal.vec v) => Except.ok v
        | _ =>
          match dlookup "recognition_other_hit" con with
          | some (CVal.vec v) => Except.ok v
          | _ => getv con "recognition_other_no_response"
    let correct_rejection ←
      match dlookup "correct_rejection" con with
      | some (CVal.vec v) => Except.ok v
      | _ => getv con "false_alarm"
    let recognition_self_hit ←
      match dlookup "recognition_self_hit" con with
      | some (CVal.vec v) => Except.ok v
      | _ => getv con "recognition_self_miss"
    let recognition_self ←
      match dlookup "recognition_self_hit" con, dlookup "recognition_self_miss" con with
      | some (CVal.vec a), some (CVal.vec b) => Except.ok (vadd a b)
      | _, _ =>
        match dlookup "recognition_self_miss" con with
        | some (CVal.vec v) => Except.ok v
        | _ => getv con "recognition_self_hit"
    let recognition_other ←
      match dlookup "recognition_other_hit" con, dlookup "recognition_other_miss" con with
      | some (CVal.vec a), some (CVal.vec b) => Except.ok (vadd a b)
      | _, _ =>
        match dlookup "recognition_other_hit" con with
        | some (CVal.vec v) => Except.ok v
        | _ => getv con "recognition_other_miss"
    let recognition_other_hit ←
      match dlookup "recognition_other_hit" con with
      | some (CVal.vec v) => Except.ok v
      | _ => getv con "recognition_other_miss"
    let encode_self ← getv con "encode_self"
    let encode_other ← getv con "encode_other"
    let instructions ← getv con "instructions"
    let false_alarm ← getv con "false_alarm"
    let contrasts := dictOf [
      ("encode_self-other", CVal.vec (vsub encode_self encode_other)),
      ("encode_other", CVal.vec encode_other),
      ("encode_self", CVal.vec encode_self),
      ("instructions", CVal.vec instructions),
      ("false_alarm", CVal.vec false_alarm),
      ("recognition_hit", CVal.vec recognition_hit),
      ("recognition_self_hit", CVal.vec recognition_self_hit),
      ("recognition_hit-correct_rejection",
        CVal.vec (vsub recognition_hit correct_rejection)),
      ("correct_rejection", CVal.vec correct_rejection),
      ("recognition_self-other", CVal.vec (vsub recognition_self recognition_other)),
      ("recognition_other_hit", CVal.vec recognition_other_hit)]
    let _ ← assertKeys contrasts contrast_names
    let contrasts := _append_derivative_contrast dmc contrasts
    let contrasts := _append_effects_interest_contrast dmc contrasts
    return contrasts

/-- `vstm`: orthogonal-polynomial contrasts for the VSTM task (6-level
ordinal response factor). -/
def vstm (design_matrix_columns : Option (List String)) : Py CMap := do
  let contrast_names := ["vstm_linear", "vstm_constant", "vstm_quadratic"]
  match design_matrix_columns with
  | none => return schemaDict contrast_names
  | some dmc => do
    let constant := ones 6
    let linear := linspace (-1) 1 6
    let quadratic := vsub (linear.map (fun x => qmul x x))
      (List.replicate 6 (vmean (linear.map (fun x => qmul x x))))
    let con := _elementary_contrasts dmc
    let response ← (List.range 6).mapM (fun i =>
      getv con ("response_num_" ++ toString (i + 1)))
    let n := dmc.length
    let contrasts := dictOf [
      ("vstm_constant", CVal.vec (mdot constant response n)),
      ("vstm_linear", CVal.vec (mdot linear response n)),
      ("vstm_quadratic", CVal.vec (mdot quadratic response n))]
    let _ ← assertKeys contrasts contrast_names
    let contrasts := _append_derivative_contrast dmc contrasts
    let contrasts := _append_effects_interest_contrast dmc contrasts
    return contrasts

/-- `enumeration`: orthogonal-polynomial contrasts for the enumeration
task (8-level ordinal response factor). -/
def enumeration (design_matrix_columns : Option (List String)) : Py CMap := do
  let contrast_names := ["enumeration_linear", "enumeration_constant",
                         "enumeration_quadratic"]
  match design_matrix_columns with
  | none => return schemaDict contrast_names
  | some dmc => do
    let con := _elementary_contrasts dmc
    let constant := ones 8
    let linear := linspace (-1) 1 8
    let quadratic := vsub (linear.map (fun x => qmul x x))
      (List.replicate 8 (vmean (linear.map (fun x => qmul x x))))
    let response ← (List.range 8).mapM (fun i =>
      getv con ("response_num_" ++ toString (i + 1)))
    let n := dmc.length
    let contrasts := dictOf [
      ("enumeration_constant", CVal.vec (mdot constant response n)),
      ("enumeration_linear", CVal.vec (mdot linear response n)),
      ("enumeration_quadratic", CVal.vec (mdot quadratic response n))]
    let _ ← assertKeys contrasts contrast_names
    let contrasts := _append_derivative_contrast dmc contrasts
    let contrasts := _append_effects_interest_contrast dmc contrasts
    return contrasts

/-- `math_language`: contrasts for the math-language task. -/
def math_language (design_matrix_columns : Option (List String)) : Py CMap := do
  let contrast_names := ["colorlessg", "control", "arithfact", "tom", "geomfact",
                         "general", "arithprin", "context", "math-others",
                         "geometry-arithmetics", "tom_and_context-general",
                         "tom-general"]
  match design_matrix_columns with
  | none => return schemaDict contrast_names
  | some dmc => do
    let con := _elementary_contrasts dmc
    let contrasts ← pickVecs con contrast_names
    let arithprin ← getv contrasts "arithprin"
    let arithfact ← getv contrasts "arithfact"
    let geomfact ← getv contrasts "geomfact"
    let tom ← getv contrasts "tom"
    let general ← getv contrasts "general"
    let context ← getv contrasts "context"
    let contrasts := dinsert "math-others"
      (CVal.vec (vsub (vsub (vsub (vadd (vadd arithprin arithfact) geomfact) tom) general)
        context)) contrasts
    let contrasts := dinsert "geometry-arithmetics"
      (CVal.vec (vsub geomfact (smul (q 1 2) (vadd arithprin arithfact)))) contrasts
    let contrasts := dinsert "tom_and_context-general"
      (CVal.vec (vsub (vadd tom context) (smul 2 general))) contrasts
    let contrasts := dinsert "tom-general" (CVal.vec (vsub tom general)) contrasts
    let _ ← assertKeys contrasts contrast_names
    let contrasts := _append_derivative_contrast dmc contrasts
    let contrasts := _append_effects_interest_contrast dmc contrasts
    return contrasts

/-- `spatial_navigation`: contrasts for the spatial navigation task. -/
def spatial_navigation (design_matrix_columns : Option (List String)) : Py CMap := do
  let contrast_names := ["experimental", "pointing", "control"]
  match design_matrix_columns with
  | none => return schemaDict contrast_names
  | some dmc => do
    let con := _elementary_contrasts dmc
    let _ ← pickVecs con contrast_names
    let experimental ← getv con "experimental"
    let pointing_phase ← getv con "pointing_phase"
    let control ← getv con "control"
    let contrasts := dictOf [
      ("experimental", CVal.vec experimental),
      ("pointing", CVal.vec pointing_phase),
      ("control", CVal.vec control)]
    let _ ← assertKeys contrasts contrast_names
    let contrasts := _append_derivative_contrast dmc contrasts
    let contrasts := _append_effects_interest_contrast dmc contrasts
    return contrasts

/-- `biological_motion1`: contrasts for the biological motion 1 protocol. -/
def biological_motion1 (design_matrix_columns : Option (List String)) : Py CMap := do
  let contrast_names := ["global_upright", "global_inverted",
                         "natural_upright", "natural_inverted",
                         "global_upright - natural_upright",
                         "global_upright - global_inverted",
                         "natural_upright - natural_inverted"]
  match design_matrix_columns with
  | none => return schemaDict contrast_names
  | some dmc => do
    let con := _elementary_contrasts dmc
    let contrasts ← pickVecs con (contrast_names.take 4)
    let gu ← getv contrasts "global_upright"
    let gi ← getv contrasts "global_inverted"
    let nu ← getv contrasts "natural_upright"
    let ni ← getv contrasts "natural_inverted"
    let contrasts := dinsert "global_upright - natural_upright" (CVal.vec (vsub gu nu)) contrasts
    let contrasts := dinsert "global_upright - global_inverted" (CVal.vec (vsub gu gi)) contrasts
    let contrasts := dinsert "natural_upright - natural_inverted" (CVal.vec (vsub nu ni)) contrasts
    let _ ← assertKeys contrasts contrast_names
    let contrasts := _append_derivative_contrast dmc contrasts
    let contrasts := _append_effects_interest_contrast dmc contrasts
    return contrasts

/-- `biological_motion2`: contrasts for the biological motion 2 protocol. -/
def biological_motion2 (design_matrix_columns : Option (List String)) : Py CMap := do
  let contrast_names := ["modified_upright", "modified_inverted",
                         "natural_upright", "natural_inverted",
                         "modified_upright - natural_upright",
                         "modified_upright - modified_inverted",
                         "natural_upright - natural_inverted"]
  match design_matrix_columns with
  | none => return schemaDict contrast_names
  | some dmc => do
    let con := _elementary_contrasts dmc
    let contrasts ← pickVecs con (contrast_names.take 4)
    let mu ← getv contrasts "modified_upright"
    let mi ← getv contrasts "modified_inverted"
    let nu ← getv contrasts "natural_upright"
    let ni ← getv contrasts "natural_inverted"
    let contrasts := dinsert "modified_upright - natural_upright" (CVal.vec (vsub mu nu)) contrasts
    let contrasts := dinsert "modified_upright - modified_inverted" (CVal.vec (vsub mu mi)) contrasts
    let contrasts := dinsert "natural_upright - natural_inverted" (CVal.vec (vsub nu ni)) contrasts
    let _ ← assertKeys contrasts contrast_names
    let contrasts := _append_derivative_contrast dmc contrasts
    let contrasts := _append_effects_interest_contrast dmc contrasts
    return contrasts

/-- `dot_patterns`: contrasts for Stanford's dot patterns protocol. -/
def dot_patterns (design_matrix_columns : Option (List String)) : Py CMap := do
  let contrast_names := [
    "cue",
    "correct_cue_correct_probe",
    "correct_cue_incorrect_probe",
    "incorrect_cue_correct_probe",
    "incorrect_cue_incorrect_probe",
    "correct_cue_incorrect_probe-correct_cue_correct_probe",
    "incorrect_cue_incorrect_probe-incorrect_cue_correct_probe",
    "correct_cue_incorrect_probe-incorrect_cue_correct_probe",
    "incorrect_cue_incorrect_probe-correct_cue_incorrect_probe",
    "correct_cue-incorrect_cue",
    "incorrect_probe-correct_probe"]
  match design_matrix_columns with
  | none => return schemaDict contrast_names
  | some dmc => do
    let con := _elementary_contrasts dmc
    let cue ← getv con "cue"
    let cccp ← getv con "correct_cue_correct_probe"
    let ccip ← getv con "correct_cue_incorrect_probe"
    let iccp ← getv con "incorrect_cue_correct_probe"
    let icip ← getv con "incorrect_cue_incorrect_probe"
    let contrasts := dictOf [
      ("cue", CVal.vec cue),
      ("correct_cue_correct_probe", CVal.vec cccp),
      ("correct_cue_incorrect_probe", CVal.vec ccip),
      ("incorrect_cue_correct_probe", CVal.vec iccp),
      ("incorrect_cue_incorrect_probe", CVal.vec icip),
      ("correct_cue_incorrect_probe-correct_cue_correct_probe", CVal.vec (vsub ccip cccp)),
      ("incorrect_cue_incorrect_probe-incorrect_cue_correct_probe", CVal.vec (vsub icip iccp)),
      ("correct_cue_incorrect_probe-incorrect_cue_correct_probe", CVal.vec (vsub ccip iccp)),
      ("incorrect_cue_incorrect_probe-correct_cue_incorrect_probe", CVal.vec (vsub icip ccip)),
      ("correct_cue-incorrect_cue", CVal.vec (vsub (vsub (vadd cccp ccip) iccp) icip)),
      ("incorrect_probe-correct_probe",
        CVal.vec (vadd (vsub (vadd (vneg cccp) ccip) iccp) icip))]
    let _ ← assertKeys contrasts contrast_names
    let contrasts := _append_derivative_contrast dmc contrasts
    let contrasts := _append_effects_interest_contrast dmc contrasts
    return contrasts

/-- `columbia_cards`: contrasts for Stanford's Columbia Cards protocol. -/
def columbia_cards (design_matrix_columns : Option (List String)) : Py CMap := do
  let contrast_names := ["num_loss_cards", "loss", "gain"]
  match design_matrix_columns with
  | none => return schemaDict contrast_names
  | some dmc => do
    let con := _elementary_contrasts dmc
    let contrasts ← pickVecs con contrast_names
    let _ ← assertKeys contrasts contrast_names
    let contrasts := _append_derivative_contrast dmc contrasts
    let contrasts := _append_effects_interest_contrast dmc contrasts
    return contrasts

/-- `discount`: contrasts for Stanford's discount protocol. -/
def discount (design_matrix_columns : Option (List String)) : Py CMap := do
  let contrast_names := ["delay", "amount"]
  match design_matrix_columns with
  | none => return schemaDict contrast_names
  | some dmc => do
    let con := _elementary_contrasts dmc
    let contrasts ← pickVecs con contrast_names
    let _ ← assertKeys contrasts contrast_names
    let contrasts := _append_derivative_contrast dmc contrasts
    let contrasts := _append_effects_interest_contrast dmc contrasts
    return contrasts

/-- `towertask`: contrasts for Stanford's Tower task protocol. -/
def towertask (design_matrix_columns : Option (List String)) : Py CMap := do
  let contrast_names := ["ambiguous_intermediate", "ambiguous_direct",
                         "unambiguous_intermediate", "unambiguous_direct",
                         "intermediate-direct", "ambiguous-unambiguous"]
  match design_matrix_columns with
  | none => return schemaDict contrast_names
  | some dmc => do
    let con := _elementary_contrasts dmc
    let ai ← getv con "ambiguous_intermediate"
    let ad ← getv con "ambiguous_direct"
    let ui ← getv con "unambiguous_intermediate"
    let ud ← getv con "unambiguous_direct"
    let contrasts := dictOf [
      ("ambiguous_intermediate", CVal.vec ai),
      ("ambiguous_direct", CVal.vec ad),
      ("unambiguous_intermediate", CVal.vec ui),
      ("unambiguous_direct", CVal.vec ud),
      ("intermediate-direct", CVal.vec (vsub (vadd ai ui) (vadd ad ud))),
      ("ambiguous-unambiguous", CVal.vec (vsub (vadd (vsub ai ui) ad) ud))]
    let _ ← assertKeys contrasts contrast_names
    let contrasts := _append_derivative_contrast dmc contrasts
    let contrasts := _append_effects_interest_contrast dmc contrasts
    return contrasts

/-- `attention`: contrasts for Stanford's attention protocol. -/
def attention (design_matrix_columns : Option (List String)) : Py CMap := do
  let contrast_names := [
    "spatial_cue-double_cue",
    "spatial_cue", "double_cue",
    "incongruent-congruent", "spatial_incongruent-spatial_congruent",
    "double_incongruent-double_congruent", "spatial_incongruent",
    "double_congruent", "spatial_congruent",
    "double_incongruent"]
  match design_matrix_columns with
  | none => return schemaDict contrast_names
  | some dmc => do
    let con := _elementary_contrasts dmc
    let spatialcue ← getv con "spatialcue"
    let doublecue ← getv con "doublecue"
    let si ← getv con "spatial_incongruent"
    let sc ← getv con "spatial_congruent"
    let di ← getv con "double_incongruent"
    let dc ← getv con "double_congruent"
    let contrasts := dictOf [
      ("spatial_cue-double_cue", CVal.vec (vsub spatialcue doublecue)),
      ("spatial_cue", CVal.vec spatialcue),
      ("double_cue", CVal.vec doublecue),
      ("incongruent-congruent", CVal.vec (vsub (vadd (vsub si sc) di) dc)),
      ("spatial_incongruent-spatial_congruent", CVal.vec (vsub si sc)),
      ("double_incongruent-double_congruent", CVal.vec (vsub di dc)),
      ("spatial_incongruent", CVal.vec si),
      ("double_congruent", CVal.vec dc),
      ("spatial_congruent", CVal.vec sc),
      ("double_incongruent", CVal.vec di)]
    let _ ← assertKeys contrasts contrast_names
    let contrasts := _append_derivative_contrast dmc contrasts
    let contrasts := _append_effects_interest_contrast dmc contrasts
    return contrasts

/-- `selective_stop_signal`: contrasts for Stanford's selective stop-signal
protocol. -/
def selective_stop_signal (design_matrix_columns : Option (List String)) : Py CMap := do
  let contrast_names := ["go", "stop", "ignore",
                         "stop-go", "ignore-stop", "stop-ignore", "ignore-go"]
  match design_matrix_columns with
  | none => return schemaDict contrast_names
  | some dmc => do
    let con := _elementary_contrasts dmc
    let go ← getv con "go"
    let stop ← getv con "stop"
    let ignore ← getv con "ignore"
    let contrasts := dictOf [
      ("go", CVal.vec go),
      ("stop", CVal.vec stop),
      ("ignore", CVal.vec ignore),
      ("stop-go", CVal.vec (vsub stop go)),
      ("ignore-stop", CVal.vec (vsub ignore stop)),
      ("stop-ignore", CVal.vec (vsub stop ignore)),
      ("ignore-go", CVal.vec (vsub ignore go))]
    let _ ← assertKeys contrasts contrast_names
    let contrasts := _append_derivative_contrast dmc contrasts
    let contrasts := _append_effects_interest_contrast dmc contrasts
    return contrasts

/-- `stop_signal`: contrasts for the Stanford stop-signal protocol. -/
def stop_signal (design_matrix_columns : Option (List String)) : Py CMap := do
  let contrast_names := ["go", "stop", "stop-go"]
  match design_matrix_columns with
  | none => return schemaDict contrast_names
  | some dmc => do
    let con := _elementary_contrasts dmc
    let go ← getv con "go"
    let stop ← getv con "stop"
    let contrasts := dictOf [
      ("go", CVal.vec go),
      ("stop", CVal.vec stop),
      ("stop-go", CVal.vec (vsub stop go))]
    let _ ← assertKeys contrasts contrast_names
    let contrasts := _append_derivative_contrast dmc contrasts
    let contrasts := _append_effects_interest_contrast dmc contrasts
    return contrasts

/-- `lyon_lec2`: contrasts for the Lyon lec2 protocol. -/
def lyon_lec2 (design_matrix_columns : Option (List String)) : Py CMap := do
  let contrast_names := ["attend", "unattend", "attend-unattend"]
  match design_matrix_columns with
  | none => return schemaDict contrast_names
  | some dmc => do
    let con := _elementary_contrasts dmc
    let attend ← getv con "attend"
    let unattend ← getv con "unattend"
    let contrasts := dictOf [
      ("attend", CVal.vec attend),
      ("unattend", CVal.vec unattend),
      ("attend-unattend", CVal.vec (vsub attend unattend))]
    let _ ← assertKeys contrasts contrast_names
    let contrasts := _append_derivative_contrast dmc contrasts
    let contrasts := _append_effects_interest_contrast dmc contrasts
    return contrasts

/-- `wedge`: contrasts for the retinotopy wedge stimulation. -/
def wedge (design_matrix_columns : Option (List String)) : Py CMap := do
  let contrast_names := [
    "lower_meridian", "lower_right", "right_meridian", "upper_right",
    "upper_meridian", "upper_left", "left_meridian", "lower_left"]
  match design_matrix_columns with
  | none => return schemaDict contrast_names
  | some dmc => do
    let con := _elementary_contrasts dmc
    let contrasts ← pickVecs con contrast_names
    let _ ← assertKeys contrasts contrast_names
    let contrasts := _append_derivative_contrast dmc contrasts
    let contrasts := _append_effects_interest_contrast dmc contrasts
    return contrasts

/-- `ring`: contrasts for the retinotopy ring stimulation. -/
def ring (design_matrix_columns : Option (List String)) : Py CMap := do
  let contrast_names := ["foveal", "middle", "peripheral"]
  match design_matrix_columns with
  | none => return schemaDict contrast_names
  | some dmc => do
    let con := _elementary_contrasts dmc
    let contrasts ← pickVecs con contrast_names
    let _ ← assertKeys contrasts contrast_names
    let contrasts := _append_derivative_contrast dmc contrasts
    let contrasts := _append_effects_interest_contrast dmc contrasts
    return contrasts

/-- `stroop`: contrasts for the Stanford stroop protocol.  Note the
declared name `'congruent-incongruent'` is never produced. -/
def stroop (design_matrix_columns : Option (List String)) : Py CMap := do
  let contrast_names := ["congruent", "incongruent", "congruent-incongruent",
                         "incongruent-congruent"]
  match design_matrix_columns with
  | none => return schemaDict contrast_names
  | some dmc => do
    let con := _elementary_contrasts dmc
    let congruent ← getv con "congruent"
    let incongruent ← getv con "incongruent"
    let contrasts := dictOf [
      ("congruent", CVal.vec congruent),
      ("incongruent", CVal.vec incongruent),
      ("incongruent-congruent", CVal.vec (vsub incongruent congruent))]
    let _ ← assertKeys contrasts contrast_names
    let contrasts := _append_derivative_contrast dmc contrasts
    let contrasts := _append_effects_interest_contrast dmc contrasts
    return contrasts

/-- `two_by_two`: contrasts for Stanford's two-by-two task protocol.
Note the dict key `'cue_switch'` versus the declared `'task_repetition'`. -/
def two_by_two (design_matrix_columns : Option (List String)) : Py CMap := do
  let contrast_names := [
    "task_stay_cue_stay", "task_switch_cue_switch",
    "task_switch_cue_stay", "task_stay_cue_switch",
    "task_switch-stay", "task_repetition"]
  match design_matrix_columns with
  | none => return schemaDict contrast_names
  | some dmc => do
    let con := _elementary_contrasts dmc
    let tscs ← getv con "taskstay_cuestay"
    let twcw ← getv con "taskswitch_cueswitch"
    let twcs ← getv con "taskswitch_cuestay"
    let tscw ← getv con "taskstay_cueswitch"
    let contrasts := dictOf [
      ("task_stay_cue_stay", CVal.vec tscs),
      ("task_switch_cue_switch", CVal.vec twcw),
      ("task_switch_cue_stay", CVal.vec twcs),
      ("task_stay_cue_switch", CVal.vec tscw),
      ("task_switch-stay", CVal.vec (vsub (vadd twcw twcs) (smul 2 tscw))),
      ("cue_switch", CVal.vec (vsub tscw tscs))]
    let _ ← assertKeys contrasts contrast_names
    let contrasts := _append_derivative_contrast dmc contrasts
    let contrasts := _append_effects_interest_contrast dmc contrasts
    return contrasts

/-! ### The paradigm dispatcher -/

/-- `make_contrasts`: dispatch a paradigm identifier to its contrast
definition, mirroring the if/elif chain of the source, and raising
`ValueError('%s Unknown paradigm' % paradigm_id)` in the final else. -/
def make_contrasts (paradigm_id : String)
    (design_matrix_columns : Option (List String)) : Py CMap :=
  if paradigm_id == "archi_standard" then
    archi_standard design_matrix_columns
  else if paradigm_id == "archi_social" then
    archi_social design_matrix_columns
  else if paradigm_id == "archi_spatial" then
    archi_spatial design_matrix_columns
  else if paradigm_id == "archi_emotional" then
    archi_emotional design_matrix_columns
  else if paradigm_id == "hcp_emotion" then
    hcp_emotion design_matrix_columns
  else if paradigm_id == "hcp_gambling" then
    hcp_gambling design_matrix_columns
  else if paradigm_id == "hcp_language" then
    hcp_language design_matrix_columns
  else if paradigm_id == "hcp_motor" then
    hcp_motor design_matrix_columns
  else if paradigm_id == "hcp_wm" then
    hcp_wm design_matrix_columns
  else if paradigm_id == "hcp_relational" then
    hcp_relational design_matrix_columns
  else if paradigm_id == "hcp_social" then
    hcp_social design_matrix_columns
  else if paradigm_id == "language" then
    rsvp_language design_matrix_columns
  else if paradigm_id == "colour" then
    colour design_matrix_columns
  else if ["wedge", "wedge_anti", "wedge_clock"].contains paradigm_id then
    wedge design_matrix_columns
  else if ["ring", "cont_ring", "exp_ring"].contains paradigm_id then
    ring design_matrix_columns
  else if paradigm_id.take 10 == "preference" then
    let domain := paradigm_id.drop 11
    if domain.isEmpty then
      Except.error "IndexError: string index out of range"
    else
      let domain := if domain.takeRight 1 == "s" then domain.dropRight 1 else domain
      preferences design_matrix_columns domain
  else if paradigm_id == "MTTWE" then
    mtt_we_relative design_matrix_columns
  else if paradigm_id == "MTTNS" then
    mtt_sn_relative design_matrix_columns
  else if paradigm_id == "emotional_pain" then
    emotional_pain design_matrix_columns
  else if paradigm_id == "pain_movie" then
    pain_movie design_matrix_columns
  else if paradigm_id == "theory_of_mind" then
    theory_of_mind design_matrix_columns
  else if paradigm_id == "VSTM" then
    vstm design_matrix_columns
  else if paradigm_id == "enumeration" then
    enumeration design_matrix_columns
  else if paradigm_id == "clips_trn" then
    Except.ok []
  else if paradigm_id == "self" then
    self_localizer design_matrix_columns
  else if paradigm_id == "lyon_moto" then
    lyon_moto design_matrix_columns
  else if paradigm_id == "lyon_mcse" then
    lyon_mcse design_matrix_columns
  else if paradigm_id == "lyon_mveb" then
    lyon_mveb design_matrix_columns
  else if paradigm_id == "lyon_mvis" then
    lyon_mvis design_matrix_columns
  else if paradigm_id == "lyon_lec1" then
    lyon_lec1 design_matrix_columns
  else if paradigm_id == "lyon_lec2" then
    lyon_lec2 design_matrix_columns
  else if paradigm_id == "lyon_audi" then
    lyon_audi design_matrix_columns
  else if paradigm_id == "lyon_visu" then
    lyon_visu design_matrix_columns
  else if paradigm_id == "audio" then
    audio design_matrix_columns
  else if paradigm_id == "bang" then
    bang design_matrix_columns
  else if paradigm_id == "selective_stop_signal" then
    selective_stop_signal design_matrix_columns
  else if paradigm_id == "stop_signal" then
    stop_signal design_matrix_columns
  else if paradigm_id == "stroop" then
    stroop design_matrix_columns
  else if paradigm_id == "discount" then
    discount design_matrix_columns
  else if paradigm_id == "attention" then
    attention design_matrix_columns
  else if paradigm_id == "ward_and_aliport" then
    towertask design_matrix_columns
  else if paradigm_id == "two_by_two" then
    two_by_two design_matrix_columns
  else if paradigm_id == "columbia_cards" then
    columbia_cards design_matrix_columns
  else if paradigm_id == "dot_patterns" then
    dot_patterns design_matrix_columns
  else if paradigm_id == "biological_motion1" then
    biological_motion1 design_matrix_columns
  else if paradigm_id == "biological_motion2" then
    biological_motion2 design_matrix_columns
  else if paradigm_id == "math_language" then
    math_language design_matrix_columns
  else if paradigm_id == "spatial_navigation" then
    spatial_navigation design_matrix_columns
  else
    Except.error (paradigm_id ++ " Unknown paradigm")

/-- An identifier is recognized by the dispatcher when it matches one of
the branch conditions of `make_contrasts` (exact ids, the wedge and ring
families, or the `preference` prefix pattern). -/
def recognizedParadigm (paradigm_id : String) : Bool :=
  paradigm_id == "archi_standard" ||
  paradigm_id == "archi_social" ||
  paradigm_id == "archi_spatial" ||
  paradigm_id == "archi_emotional" ||
  paradigm_id == "hcp_emotion" ||
  paradigm_id == "hcp_gambling" ||
  paradigm_id == "hcp_language" ||
  paradigm_id == "hcp_motor" ||
  paradigm_id == "hcp_wm" ||
  paradigm_id == "hcp_relational" ||
  paradigm_id == "hcp_social" ||
  paradigm_id == "language" ||
  paradigm_id == "colour" ||
  ["wedge", "wedge_anti", "wedge_clock"].contains paradigm_id ||
  ["ring", "cont_ring", "exp_ring"].contains paradigm_id ||
  paradigm_id.take 10 == "preference" ||
  paradigm_id == "MTTWE" ||
  paradigm_id == "MTTNS" ||
  paradigm_id == "emotional_pain" ||
  paradigm_id == "pain_movie" ||
  paradigm_id == "theory_of_mind" ||
  paradigm_id == "VSTM" ||
  paradigm_id == "enumeration" ||
  paradigm_id == "clips_trn" ||
  paradigm_id == "self" ||
  paradigm_id == "lyon_moto" ||
  paradigm_id == "lyon_mcse" ||
  paradigm_id == "lyon_mveb" ||
  paradigm_id == "lyon_mvis" ||
  paradigm_id == "lyon_lec1" ||
  paradigm_id == "lyon_lec2" ||
  paradigm_id == "lyon_audi" ||
  paradigm_id == "lyon_visu" ||
  paradigm_id == "audio" ||
  paradigm_id == "bang" ||
  paradigm_id == "selective_stop_signal" ||
  paradigm_id == "stop_signal" ||
  paradigm_id == "stroop" ||
  paradigm_id == "discount" ||
  paradigm_id == "attention" ||
  paradigm_id == "ward_and_aliport" ||
  paradigm_id == "two_by_two" ||
  paradigm_id == "columbia_cards" ||
  paradigm_id == "dot_patterns" ||
  paradigm_id == "biological_motion1" ||
  paradigm_id == "biological_motion2" ||
  paradigm_id == "math_language" ||
  paradigm_id == "spatial_navigation"

/-! ### The group-level statistical analysis (`global_stat.py`) -/

/-- The fixed threshold used by `anova` when post-processing the three
per-factor z maps. -/
def anova_threshold : ℚ := -82095 / 10000

/-- The voxelwise operation `math_img('img * (img > -8.2095)')` applied
by `anova` to each of the three per-factor statistical maps (the boolean
mask is cast to 1 or 0 and multiplied into the image). -/
def anova_clip_voxel (img : ℚ) : ℚ :=
  img * (if img > anova_threshold then 1 else 0)

/-- The whole-map application of `anova_clip_voxel` (images modelled as
lists of voxel values). -/
def anova_clip_map (img : List ℚ) : List ℚ := img.map anova_clip_voxel

/-- Modelled from the claim wording: flooring a voxel value at the fixed
z-equivalent threshold −8.2095 (what "numerically floored at" means). -/
def floor_at_threshold (img : ℚ) : ℚ := max img anova_threshold

/-! ### Auxiliary constructions used by the theorems -/

/-- Extract the dict from a successful computation (and the empty dict
from a failed one). -/
def okMap (r : Py CMap) : CMap :=
  match r with
  | Except.ok m => m
  | Except.error _ => []

/-- Did the computation succeed? -/
def pyIsOk (r : Py CMap) : Bool :=
  match r with
  | Except.ok _ => true
  | Except.error _ => false

/-- The rows the effects-of-interest extension is specified to collect:
the basis vectors of every column that is neither in the nuisance set
nor named with the derivative suffix, in column order. -/
def effectsInterestRows (cols : List String) : List Vec :=
  ((List.range cols.length).filter (fun i =>
    !(nuisance.contains (colAt cols i)) && !(isDerivName (colAt cols i)))).map
    (eye cols.length)

/-- The rows the derivative extension is specified to collect: the basis
vectors of every derivative-suffixed column, in column order. -/
def derivativeRows (cols : List String) : List Vec :=
  ((List.range cols.length).filter (fun i => isDerivName (colAt cols i))).map
    (eye cols.length)

/-! ### Dictionary lemmas -/

theorem dlookup_dinsert_self (k : String) (v : CVal) :
    ∀ m : CMap, dlookup k (dinsert k v m) = some v
  | [] => by simp [dinsert, dlookup]
  | p :: t => by
    by_cases h : p.1 == k
    · simp [dinsert, dlookup, h]
    · simp [dinsert, dlookup, h, dlookup_dinsert_self k v t]

theorem dlookup_dinsert_ne (k k' : String) (v : CVal) (hne : k' ≠ k) :
    ∀ m : CMap, dlookup k (dinsert k' v m) = dlookup k m
  | [] => by
    have h : (k' == k) = false := by simpa using hne
    simp [dinsert, dlookup, h]
  | p :: t => by
    have h : (k' == k) = false := by simpa using hne
    by_cases hp : p.1 == k'
    · have hpk : (p.1 == k) = false := by
        have : p.1 = k' := by simpa using hp
        simpa [this] using hne
      simp [dinsert, dlookup, hp, hpk, h]
    · simp [dinsert, dlookup, hp, dlookup_dinsert_ne k k' v hne t]

theorem dinsert_of_dlookup (k : String) (v : CVal) :
    ∀ m : CMap, dlookup k m = some v → dinsert k v m = m
  | [], h => by simp [dlookup] at h
  | p :: t, h => by
    by_cases hp : p.1 == k
    · have hk : p.1 = k := by simpa using hp
      have hv : p.2 = v := by simpa [dlookup, hp] using h
      simp [dinsert, hp, ← hk, ← hv]
    · have ht : dlookup k t = some v := by simpa [dlookup, hp] using h
      simp [dinsert, hp, dinsert_of_dlookup k v t ht]

theorem dinsert_dinsert (k : String) (v : CVal) (m : CMap) :
    dinsert k v (dinsert k v m) = dinsert k v m :=
  dinsert_of_dlookup k v _ (dlookup_dinsert_self k v m)

/-! ### Bridging the loop bodies of the two extensions -/

theorem filterMap_one_if (b : Nat → Bool) (g : Nat → Vec) :
    ∀ l : List Nat,
      (l.filterMap (fun i => if b i then some (g i) else none)) = (l.filter b).map g
  | [] => rfl
  | x :: t => by
    by_cases hb : b x <;>
      simp [List.filterMap_cons, List.filter_cons, hb, filterMap_one_if b g t]

theorem filterMap_two_if (a b : Nat → Bool) (g : Nat → Vec) :
    ∀ l : List Nat,
      (l.filterMap (fun i => if a i then none else if b i then none else some (g i)))
        = (l.filter (fun i => !(a i) && !(b i))).map g
  | [] => rfl
  | x :: t => by
    by_cases ha : a x
    · simp [List.filterMap_cons, List.filter_cons, ha, filterMap_two_if a b g t]
    · by_cases hb : b x <;>
        simp [List.filterMap_cons, List.filter_cons, ha, hb, filterMap_two_if a b g t]

theorem effects_interest_eq (cols : List String) (contrast : CMap) :
    _append_effects_interest_contrast cols contrast =
      if effectsInterestRows cols = [] then contrast
      else dinsert "effects_interest" (CVal.mat (effectsInterestRows cols)) contrast := by
  unfold _append_effects_interest_contrast effectsInterestRows
  dsimp only
  rw [filterMap_two_if]

theorem derivative_eq (cols : List String) (contrast : CMap) :
    _append_derivative_contrast cols contrast =
      if derivativeRows cols = [] then contrast
      else dinsert "derivatives" (CVal.mat (derivativeRows cols)) contrast := by
  unfold _append_derivative_contrast derivativeRows
  dsimp only
  rw [filterMap_one_if]

theorem eye_inj {n i j : Nat} (hi : i < n) (h : eye n i = eye n j) : i = j := by
  unfold eye at h
  rw [List.map_eq_map_iff] at h
  have hii := h i (List.mem_range.mpr hi)
  by_cases hij : i = j
  · exact hij
  · simp [hij] at hii

/-! ### Claim theorems -/

/-- C3: the effects-of-interest extension stores, under the reserved key
`'effects_interest'`, the matrix whose rows are exactly the basis vectors
of the columns that are neither in the fixed nuisance set nor named with
the derivative suffix; on `['a','b','constant','drift_0']` it yields
exactly the two basis rows for `a` and `b`; and when the row set is
empty the contrast set is returned unchanged, with no empty-matrix entry. -/
theorem effects_interest_extension_spec (cols : List String) (contrast : CMap) :
    (effectsInterestRows cols ≠ [] →
      _append_effects_interest_contrast cols contrast
        = dinsert "effects_interest" (CVal.mat (effectsInterestRows cols)) contrast) ∧
    (effectsInterestRows cols = [] →
      _append_effects_interest_contrast cols contrast = contrast) ∧
    _append_effects_interest_contrast ["a", "b", "constant", "drift_0"] []
      = [("effects_interest", CVal.mat [eye 4 0, eye 4 1])] := by
  refine ⟨fun h => ?_, fun h => ?_, by decide⟩
  · rw [effects_interest_eq, if_neg h]
  · rw [effects_interest_eq, if_pos h]

/-- Witness for C3: the two implications applied at concrete inputs. -/
theorem effects_interest_extension_spec_witness :
    (effectsInterestRows ["a", "b", "constant", "drift_0"] ≠ [] ∧
      _append_effects_interest_contrast ["a", "b", "constant", "drift_0"]
          [("k", CVal.empty)]
        = dinsert "effects_interest"
            (CVal.mat (effectsInterestRows ["a", "b", "constant", "drift_0"]))
            [("k", CVal.empty)]) ∧
    (effectsInterestRows ["constant", "tx"] = [] ∧
      _append_effects_interest_contrast ["constant", "tx"] [("k", CVal.empty)]
        = [("k", CVal.empty)]) :=
  ⟨⟨by decide, (effects_interest_extension_spec ["a", "b", "constant", "drift_0"]
      [("k", CVal.empty)]).1 (by decide)⟩,
   ⟨by decide, (effects_interest_extension_spec ["constant", "tx"]
      [("k", CVal.empty)]).2.1 (by decide)⟩⟩

/-- C4: both derived-contrast extensions are idempotent, separately and
as the composite used by the paradigm definitions (derivative extension
followed by effects-of-interest extension): a second application leaves
the contrast set unchanged. -/
theorem derived_extensions_idempotent (cols : List String) (m : CMap) :
    _append_effects_interest_contrast cols (_append_effects_interest_contrast cols m)
      = _append_effects_interest_contrast cols m ∧
    _append_derivative_contrast cols (_append_derivative_contrast cols m)
      = _append_derivative_contrast cols m ∧
    _append_effects_interest_contrast cols (_append_derivative_contrast cols
        (_append_effects_interest_contrast cols (_append_derivative_contrast cols m)))
      = _append_effects_interest_contrast cols (_append_derivative_contrast cols m) := by
  have hne : ("effects_interest" : String) ≠ "derivatives" := by decide
  refine ⟨?_, ?_, ?_⟩
  · by_cases he : effectsInterestRows cols = [] <;>
      simp [effects_interest_eq, he, dinsert_dinsert]
  · by_cases hd : derivativeRows cols = [] <;>
      simp [derivative_eq, hd, dinsert_dinsert]
  · by_cases he : effectsInterestRows cols = [] <;> by_cases hd : derivativeRows cols = []
    · simp [effects_interest_eq, derivative_eq, he, hd]
    · simp [effects_interest_eq, derivative_eq, he, hd, dinsert_dinsert]
    · simp [effects_interest_eq, derivative_eq, he, hd, dinsert_dinsert]
    · have key : dinsert "derivatives" (CVal.mat (derivativeRows cols))
          (dinsert "effects_interest" (CVal.mat (effectsInterestRows cols))
            (dinsert "derivatives" (CVal.mat (derivativeRows cols)) m))
          = dinsert "effects_interest" (CVal.mat (effectsInterestRows cols))
            (dinsert "derivatives" (CVal.mat (derivativeRows cols)) m) := by
        apply dinsert_of_dlookup
        rw [dlookup_dinsert_ne _ _ _ hne]
        exact dlookup_dinsert_self _ _ _
      simp only [effects_interest_eq, derivative_eq, if_neg he, if_neg hd]
      rw [key, dinsert_dinsert]

/-- C10: a column named exactly `'_derivative'` (11 characters) fails the
strict `len > 11` test, so it is never collected by the derivative
extension and is instead collected among the effects-of-interest rows. -/
theorem derivative_suffix_boundary (cols : List String) (i : Nat)
    (hi : i < cols.length) (hname : colAt cols i = "_derivative") :
    eye cols.length i ∈ effectsInterestRows cols ∧
    eye cols.length i ∉ derivativeRows cols ∧
    isDerivName "_derivative" = false ∧
    _append_derivative_contrast ["a", "_derivative"] [] = [] ∧
    _append_effects_interest_contrast ["a", "_derivative"] []
      = [("effects_interest", CVal.mat [eye 2 0, eye 2 1])] := by
  refine ⟨?_, ?_, by decide, by decide, by decide⟩
  · unfold effectsInterestRows
    apply List.mem_map_of_mem
    rw [List.mem_filter]
    refine ⟨List.mem_range.mpr hi, ?_⟩
    rw [hname]
    decide
  · intro hmem
    unfold derivativeRows at hmem
    rw [List.mem_map] at hmem
    obtain ⟨j, hj, hje⟩ := hmem
    rw [List.mem_filter] at hj
    have hj2 : isDerivName (colAt cols j) = true := hj.2
    have hji : j = i := eye_inj (List.mem_range.mp hj.1) hje
    rw [hji, hname] at hj2
    exact absurd hj2 (by decide)

/-- Witness for C10: the boundary theorem applied to the concrete column
list `['a','_derivative']` at index 1. -/
theorem derivative_suffix_boundary_witness :
    1 < (["a", "_derivative"] : List String).length ∧
    colAt ["a", "_derivative"] 1 = "_derivative" ∧
    eye 2 1 ∈ effectsInterestRows ["a", "_derivative"] ∧
    eye 2 1 ∉ derivativeRows ["a", "_derivative"] :=
  ⟨by decide, by decide,
   (derivative_suffix_boundary ["a", "_derivative"] 1 (by decide) (by decide)).1,
   (derivative_suffix_boundary ["a", "_derivative"] 1 (by decide) (by decide)).2.1⟩

/-- C9 (counterexample): the claim says the maps are numerically floored
at −8.2095, but at fitted value −10 the voxelwise operation of `anova`
returns 0, not the floor value −8.2095. -/
theorem anova_clip_is_not_flooring :
    anova_clip_voxel (-10) = 0 ∧
    floor_at_threshold (-10) = anova_threshold ∧
    anova_clip_voxel (-10) ≠ floor_at_threshold (-10) := by
  have h1 : anova_clip_voxel (-10) = 0 := by
    unfold anova_clip_voxel
    rw [if_neg (by norm_num [anova_threshold])]
    exact mul_zero _
  have h2 : floor_at_threshold (-10) = anova_threshold := by
    unfold floor_at_threshold
    exact max_eq_right (by norm_num [anova_threshold])
  refine ⟨h1, h2, ?_⟩
  rw [h1, h2]
  norm_num [anova_threshold]

/-- C9 (amended): each of the three per-factor maps is post-processed
voxelwise by `img * (img > -8.2095)`: a value strictly above the
threshold is kept unchanged and a value at or below it is set to 0. -/
theorem anova_clip_amended (v : ℚ) (img : List ℚ) :
    (anova_threshold < v → anova_clip_voxel v = v) ∧
    (v ≤ anova_threshold → anova_clip_voxel v = 0) ∧
    anova_clip_map img = img.map (fun x => if anova_threshold < x then x else 0) := by
  refine ⟨fun h => ?_, fun h => ?_, ?_⟩
  · unfold anova_clip_voxel
    rw [if_pos h]
    exact mul_one v
  · unfold anova_clip_voxel
    rw [if_neg (not_lt.mpr h)]
    exact mul_zero v
  · unfold anova_clip_map anova_clip_voxel
    apply List.map_congr_left
    intro x _
    by_cases hx : anova_threshold < x
    · rw [if_pos hx, if_pos hx, mul_one]
    · rw [if_neg hx, if_neg hx, mul_zero]

/-- Witness for C9 (amended): the two implications applied at the
concrete fitted values 1 and −10. -/
theorem anova_clip_amended_witness :
    anova_clip_voxel 1 = 1 ∧ anova_clip_voxel (-10) = 0 :=
  ⟨(anova_clip_amended 1 []).1 (by norm_num [anova_threshold]),
   (anova_clip_amended (-10) []).2.1 (by norm_num [anova_threshold])⟩

/-- C1: `stroop` and `two_by_two` never return a mapping whose name set
equals the declared list: their dict keys mismatch the declared names
(`stroop` omits `'congruent-incongruent'`; `two_by_two` builds
`'cue_switch'` while declaring `'task_repetition'`), so the internal
consistency assertion fails on every concrete column sequence that
contains the required elementary labels. -/
theorem declared_names_consistency_violation :
    stroop (some ["congruent", "incongruent"]) = Except.error "AssertionError" ∧
    make_contrasts "stroop" (some ["congruent", "incongruent"])
      = Except.error "AssertionError" ∧
    two_by_two (some ["taskstay_cuestay", "taskswitch_cueswitch",
        "taskswitch_cuestay", "taskstay_cueswitch"])
      = Except.error "AssertionError" ∧
    make_contrasts "two_by_two" (some ["taskstay_cuestay", "taskswitch_cueswitch",
        "taskswitch_cuestay", "taskstay_cueswitch"])
      = Except.error "AssertionError" :=
  ⟨rfl, rfl, rfl, rfl⟩

/-- A column set accepted by the MTT west-east definition. -/
def mttWEColumns : List String :=
  ["we_all_reference", "we_all_space_cue", "we_all_time_cue",
   "we_westside_close_event", "we_westside_far_event",
   "we_eastside_close_event", "we_eastside_far_event",
   "we_before_close_event", "we_before_far_event",
   "we_after_close_event", "we_after_far_event", "we_all_event_response"]

/-- A column set accepted by the MTT south-north definition. -/
def mttSNColumns : List String :=
  ["sn_all_reference", "sn_all_space_cue", "sn_all_time_cue",
   "sn_southside_close_event", "sn_southside_far_event",
   "sn_northside_close_event", "sn_northside_far_event",
   "sn_before_close_event", "sn_before_far_event",
   "sn_after_close_event", "sn_after_far_event", "sn_all_event_response"]

/-- C2: both MTT relative definitions return successfully a mapping in
which the `'*_all_event_response'` entry holds a Python string (the
contrast name itself), not a numeric vector or matrix. -/
theorem mtt_event_response_is_string :
    pyIsOk (mtt_we_relative (some mttWEColumns)) = true ∧
    dlookup "we_all_event_response" (okMap (mtt_we_relative (some mttWEColumns)))
      = some (CVal.str "we_all_event_response") ∧
    pyIsOk (mtt_sn_relative (some mttSNColumns)) = true ∧
    dlookup "sn_all_event_response" (okMap (mtt_sn_relative (some mttSNColumns)))
      = some (CVal.str "sn_all_event_response") :=
  ⟨by rfl, by rfl, by rfl, by rfl⟩

/-- C5: the dispatcher produces identical contrast output for the three
wedge-family identifiers and for the three ring-family identifiers,
whatever the column labels. -/
theorem wedge_ring_family_equivalence (cols : Option (List String)) :
    (make_contrasts "wedge" cols = make_contrasts "wedge_anti" cols ∧
     make_contrasts "wedge" cols = make_contrasts "wedge_clock" cols) ∧
    (make_contrasts "ring" cols = make_contrasts "cont_ring" cols ∧
     make_contrasts "ring" cols = make_contrasts "exp_ring" cols) :=
  ⟨⟨rfl, rfl⟩, ⟨rfl, rfl⟩⟩

/-- Columns for the `'self'` paradigm with every primary regressor
present. -/
def selfColsPrimary : List String :=
  ["instructions", "encode_self", "encode_other", "false_alarm",
   "correct_rejection", "recognition_self_hit", "recognition_self_miss",
   "recognition_other_hit", "recognition_other_miss"]

/-- Columns for the `'self'` paradigm with `correct_rejection` and
`recognition_self_hit` absent, so both documented fallbacks engage. -/
def selfColsFallback : List String :=
  ["instructions", "encode_self", "encode_other", "false_alarm",
   "recognition_self_miss", "recognition_other_hit", "recognition_other_miss"]

/-- Columns with both `correct_rejection` and its fallback
`false_alarm` absent. -/
def selfColsNoRejection : List String :=
  ["instructions", "encode_self", "encode_other",
   "recognition_self_miss", "recognition_other_hit", "recognition_other_miss"]

/-- Columns with both `recognition_self_hit` and its fallback
`recognition_self_miss` absent. -/
def selfColsNoSelfHit : List String :=
  ["instructions", "encode_self", "encode_other", "false_alarm",
   "correct_rejection", "recognition_other_hit", "recognition_other_miss"]

/-- C7: in the `'self'` paradigm each fallback-resolved term uses the
primary column when present (`correct_rejection` at index 4,
`recognition_self_hit` at index 5 of `selfColsPrimary`), otherwise its
documented fallback column (`false_alarm` at index 3,
`recognition_self_miss` at index 4 of `selfColsFallback`), and a
KeyError on the fallback column is raised when neither exists. -/
theorem self_fallback_resolution :
    (dlookup "correct_rejection" (okMap (self_localizer (some selfColsPrimary)))
        = some (CVal.vec (eye 9 4)) ∧
     dlookup "recognition_self_hit" (okMap (self_localizer (some selfColsPrimary)))
        = some (CVal.vec (eye 9 5))) ∧
    (dlookup "correct_rejection" (okMap (self_localizer (some selfColsFallback)))
        = some (CVal.vec (eye 7 3)) ∧
     dlookup "recognition_self_hit" (okMap (self_localizer (some selfColsFallback)))
        = some (CVal.vec (eye 7 4))) ∧
    self_localizer (some selfColsNoRejection) = Except.error "KeyError: false_alarm" ∧
    self_localizer (some selfColsNoSelfHit)
      = Except.error "KeyError: recognition_self_miss" :=
  ⟨⟨rfl, rfl⟩, ⟨rfl, rfl⟩, rfl, rfl⟩

/-- The minimal VSTM column set, in factor-level order. -/
def vstmCols : List String :=
  ["response_num_1", "response_num_2", "response_num_3",
   "response_num_4", "response_num_5", "response_num_6"]

/-- C8: the VSTM orthogonal-polynomial contrasts: the linear coefficients
are `linspace(-1,1,6) = [-1,-0.6,-0.2,0.2,0.6,1]`, the constant
coefficients are all ones, the quadratic coefficients are the squared
linear coefficients minus their mean, and the returned contrasts are the
dot products of these coefficient vectors with the six stacked elementary
response vectors in factor-level order (on `vstmCols` the stacked
response vectors form the identity, so each contrast equals its
coefficient vector; with a leading extra column each contrast is the
correspondingly shifted dot product). -/
theorem vstm_polynomial_contrasts :
    q (-3) 5 = -(3/5 : ℚ) ∧ q 8 15 = (8/15 : ℚ) ∧
    linspace (-1) 1 6 = [-1, q (-3) 5, q (-1) 5, q 1 5, q 3 5, 1] ∧
    vsub ((linspace (-1) 1 6).map (fun x => qmul x x))
        (List.replicate 6 (vmean ((linspace (-1) 1 6).map (fun x => qmul x x))))
      = [q 8 15, q (-8) 75, q (-32) 75, q (-32) 75, q (-8) 75, q 8 15] ∧
    dlookup "vstm_constant" (okMap (vstm (some vstmCols)))
      = some (CVal.vec (mdot (ones 6) [eye 6 0, eye 6 1, eye 6 2, eye 6 3, eye 6 4, eye 6 5] 6)) ∧
    dlookup "vstm_constant" (okMap (vstm (some vstmCols)))
      = some (CVal.vec [1, 1, 1, 1, 1, 1]) ∧
    dlookup "vstm_linear" (okMap (vstm (some vstmCols)))
      = some (CVal.vec [-1, q (-3) 5, q (-1) 5, q 1 5, q 3 5, 1]) ∧
    dlookup "vstm_quadratic" (okMap (vstm (some vstmCols)))
      = some (CVal.vec [q 8 15, q (-8) 75, q (-32) 75, q (-32) 75, q (-8) 75, q 8 15]) ∧
    dlookup "vstm_linear" (okMap (vstm (some ("dummy" :: vstmCols))))
      = some (CVal.vec (mdot (linspace (-1) 1 6)
          [eye 7 1, eye 7 2, eye 7 3, eye 7 4, eye 7 5, eye 7 6] 7)) ∧
    dlookup "vstm_linear" (okMap (vstm (some ("dummy" :: vstmCols))))
      = some (CVal.vec [0, -1, q (-3) 5, q (-1) 5, q 1 5, q 3 5, 1]) :=
  ⟨by rw [q_eq]; norm_num, by rw [q_eq]; norm_num,
   by rfl, by rfl, by rfl, by rfl, by rfl, by rfl, by rfl, by rfl⟩
/-- C6: for every paradigm identifier the dispatcher does not recognize,
`make_contrasts` raises the `'... Unknown paradigm'` lookup error naming
the offending identifier, and in particular never returns a contrast
set (empty or otherwise) for it. -/
theorem make_contrasts_unknown (paradigm_id : String) (cols : Option (List String))
    (h : recognizedParadigm paradigm_id = false) :
    make_contrasts paradigm_id cols = Except.error (paradigm_id ++ " Unknown paradigm") ∧
    ∀ m : CMap, make_contrasts paradigm_id cols ≠ Except.ok m := by
  simp only [recognizedParadigm, Bool.or_eq_false_iff] at h
  obtain ⟨⟨⟨⟨⟨⟨⟨⟨⟨⟨⟨⟨⟨⟨⟨⟨⟨⟨⟨⟨⟨⟨⟨⟨⟨⟨⟨⟨⟨⟨⟨⟨⟨⟨⟨⟨⟨⟨⟨⟨⟨⟨⟨⟨⟨⟨⟨h1, h2⟩, h3⟩, h4⟩, h5⟩, h6⟩, h7⟩, h8⟩, h9⟩, h10⟩, h11⟩, h12⟩, h13⟩, h14⟩, h15⟩, h16⟩, h17⟩, h18⟩, h19⟩, h20⟩, h21⟩, h22⟩, h23⟩, h24⟩, h25⟩, h26⟩, h27⟩, h28⟩, h29⟩, h30⟩, h31⟩, h32⟩, h33⟩, h34⟩, h35⟩, h36⟩, h37⟩, h38⟩, h39⟩, h40⟩, h41⟩, h42⟩, h43⟩, h44⟩, h45⟩, h46⟩, h47⟩, h48⟩ := h
  have hmc : make_contrasts paradigm_id cols
      = Except.error (paradigm_id ++ " Unknown paradigm") := by
    simp only [make_contrasts, h1, h2, h3, h4, h5, h6, h7, h8, h9, h10, h11, h12, h13, h14, h15, h16, h17, h18, h19, h20, h21, h22, h23, h24, h25, h26, h27, h28, h29, h30, h31, h32, h33, h34, h35, h36, h37, h38, h39, h40, h41, h42, h43, h44, h45, h46, h47, h48, Bool.false_eq_true, if_false]
  exact ⟨hmc, fun m hm => by rw [hmc] at hm; exact Except.noConfusion hm⟩

/-- Witness for C6: the theorem applied to the concrete unrecognized
identifier `'unknown_task'`. -/
theorem make_contrasts_unknown_witness :
    recognizedParadigm "unknown_task" = false ∧
    make_contrasts "unknown_task" (some ["a"])
      = Except.error "unknown_task Unknown paradigm" :=
  ⟨by decide, (make_contrasts_unknown "unknown_task" (some ["a"]) (by decide)).1⟩

end IBC

